import Mathlib

/-!
Verification of the Lundo child-behavioral-therapist backend.

Shallow embedding of the safety gate (`app/safety/triggers.py`,
`app/safety/disclaimers.py`, `app/safety/content_filter.py`), the skill
applicability scorer (`app/agents/skills/base.py`), the memory manager and
store (`app/memory/manager.py`, `app/memory/backends.py`), the question
agents (`app/agents/subagents/simple_question_agent.py`,
`followup_question_agent.py`), the knowledge-gathering workflow
(`app/workflow/nodes.py`, `app/workflow/graph.py`) and the exploration
service (`app/services/exploration_service.py`).

External collaborators (the LLM generation service, the embedding-based
semantic search, regex matching over raw text, uuid generation and the
wall clock) are modelled as explicit inputs to the embedded functions;
everything downstream of those inputs is translated from the source.
-/

namespace Lundo

/-! ## Safety trigger detection (`app/safety/triggers.py`) -/

/-- Embeds `SensitivityLevel` enum from `triggers.py`. -/
inductive SensitivityLevel where
  | safe
  | moderate
  | high
  | critical
deriving DecidableEq, Repr

/-- The value strings of the `SensitivityLevel` enum. -/
def SensitivityLevel.value : SensitivityLevel → String
  | .safe => "safe"
  | .moderate => "moderate"
  | .high => "high"
  | .critical => "critical"

/-- Result of running `_check_patterns` for each of the five keyword
families on one text.  The regex engine is an external collaborator, so the
per-family match lists are inputs. -/
structure MatchResults where
  emergencyMatches : List String
  harmMatches : List String
  medicalAdviceMatches : List String
  medicalMatches : List String
  developmentalMatches : List String
deriving DecidableEq, Repr

/-- Flag list built by `SafetyTrigger.detect_sensitive_content`: one flag
per family with a non-empty match list, appended in source order. -/
def buildFlags (m : MatchResults) : List String :=
  (if m.emergencyMatches.isEmpty then [] else ["emergency"]) ++
  (if m.harmMatches.isEmpty then [] else ["harm"]) ++
  (if m.medicalAdviceMatches.isEmpty then [] else ["medical_advice"]) ++
  (if m.medicalMatches.isEmpty then [] else ["medical"]) ++
  (if m.developmentalMatches.isEmpty then [] else ["developmental_concern"])

/-- Matched terms accumulated by `detect_sensitive_content`
(deduplicated at the end by `list(set(...))`, modelled as `dedup`). -/
def buildMatchedTerms (m : MatchResults) : List String :=
  (m.emergencyMatches ++ m.harmMatches ++ m.medicalAdviceMatches ++
    m.medicalMatches ++ m.developmentalMatches).dedup

/-- Embeds `SafetyTrigger._assess_severity`. -/
def assessSeverity (flags : List String) :
    SensitivityLevel × Bool × String :=
  if flags = [] then
    (.safe, false, "proceed_normally")
  else if "emergency" ∈ flags ∨ "harm" ∈ flags then
    (.critical, true, "escalate_immediately")
  else if "medical_advice" ∈ flags ∨
      ("developmental_concern" ∈ flags ∧ "medical" ∈ flags) then
    (.high, true, "require_professional_consultation")
  else if "medical" ∈ flags ∨ "developmental_concern" ∈ flags then
    (.moderate, true, "add_disclaimer_and_review")
  else
    (.moderate, true, "add_disclaimer_and_review")

/-- Return record of `detect_sensitive_content`. -/
structure DetectionResult where
  sensitivityLevel : SensitivityLevel
  requiresReview : Bool
  flags : List String
  matchedTerms : List String
  recommendation : String
deriving DecidableEq, Repr

/-- Embeds `SafetyTrigger.detect_sensitive_content`, as a function of the
per-family regex match results. -/
def detectSensitiveContent (m : MatchResults) : DetectionResult :=
  let flags := buildFlags m
  let a := assessSeverity flags
  { sensitivityLevel := a.1
    requiresReview := a.2.1
    flags := flags
    matchedTerms := buildMatchedTerms m
    recommendation := a.2.2 }

/-! ## Disclaimers (`app/safety/disclaimers.py`) -/

/-- Embeds `DisclaimerType` enum. -/
inductive DisclaimerType where
  | general
  | medical
  | emergency
  | developmental
  | professionalReferral
deriving DecidableEq, Repr

/-- The `DISCLAIMERS` dictionary (texts after `.strip()`). -/
def DISCLAIMERS : DisclaimerType → String
  | .general =>
    "**Important Disclaimer:**\nThis advice is for general informational and educational purposes only. It is not a substitute for professional medical advice, diagnosis, or treatment. Always seek the advice of qualified health professionals with questions regarding your child\x27s health or development."
  | .medical =>
    "**Medical Disclaimer:**\nThe information provided is not medical advice and should not be used for diagnosing or treating health conditions. If your child is experiencing medical symptoms or you have concerns about medications, please consult a qualified healthcare provider immediately.\n\n**When to seek professional help:**\n- Persistent or worsening symptoms\n- Concerns about medications or dosages\n- Need for diagnosis or treatment plan\n- Questions about your child\x27s physical or mental health"
  | .emergency =>
    "🚨 **EMERGENCY NOTICE** 🚨\n\nIf your child is in immediate danger or experiencing a medical emergency:\n- **Call 911** or your local emergency services immediately\n- Contact your local crisis hotline\n- Go to the nearest emergency room\n\n**This system cannot provide emergency assistance.**\n\nFor non-emergency mental health support:\n- National Suicide Prevention Lifeline: 988\n- Crisis Text Line: Text HOME to 741741\n- SAMHSA National Helpline: 1-800-662-4357"
  | .developmental =>
    "**Developmental Concerns Disclaimer:**\nWhile I can provide general guidance about child development, significant developmental delays or concerns require professional evaluation.\n\n**Please consult a pediatrician or developmental specialist if:**\n- Your child is not meeting expected developmental milestones\n- You notice regression in previously acquired skills\n- You have concerns about your child\x27s speech, motor skills, or social development\n- Your child\x27s behavior significantly impacts daily functioning\n\nEarly intervention can make a significant difference in developmental outcomes."
  | .professionalReferral =>
    "**Professional Referral Recommended:**\nBased on the nature of your concern, I strongly recommend consulting with:\n\n- **Pediatrician**: For medical or physical health concerns\n- **Child Psychologist/Psychiatrist**: For mental health or behavioral concerns\n- **Developmental Specialist**: For developmental delays or autism screening\n- **Licensed Therapist**: For ongoing behavioral therapy and support\n\nThese professionals can provide:\n- Comprehensive evaluation and diagnosis\n- Evidence-based treatment plans\n- Ongoing monitoring and adjustment of interventions\n- Coordination with other healthcare providers\n\n**This system provides general guidance only** and cannot replace professional clinical evaluation."

/-- Embeds `get_disclaimer` (the lookup never misses, so the fallback to the
general disclaimer is the identity case). -/
def getDisclaimer (t : DisclaimerType) : String := DISCLAIMERS t

/-- Embeds `get_disclaimers_for_flags`. -/
def getDisclaimersForFlags (flags : List String) : List String :=
  let ds := [getDisclaimer .general]
  let ds := if "emergency" ∈ flags then ds ++ [getDisclaimer .emergency] else ds
  let ds :=
    if "harm" ∈ flags then
      ds ++ [getDisclaimer .emergency, getDisclaimer .professionalReferral]
    else ds
  let ds :=
    if "medical_advice" ∈ flags ∨ "medical" ∈ flags then
      ds ++ [getDisclaimer .medical]
    else ds
  let ds :=
    if "developmental_concern" ∈ flags then
      ds ++ [getDisclaimer .developmental]
    else ds
  let ds :=
    if ("medical_advice" ∈ flags ∨ "harm" ∈ flags) ∧
        getDisclaimer .professionalReferral ∉ ds then
      ds ++ [getDisclaimer .professionalReferral]
    else ds
  ds

/-- Embeds `format_response_with_disclaimers`. -/
def formatResponseWithDisclaimers (content : String) (flags : List String)
    (prepend : Bool := false) : String :=
  if flags = [] then content
  else
    let disclaimerText :=
      String.intercalate "\n\n---\n\n" (getDisclaimersForFlags flags)
    if prepend then disclaimerText ++ "\n\n---\n\n" ++ content
    else content ++ "\n\n---\n\n" ++ disclaimerText

/-! ## Content safety filter (`app/safety/content_filter.py`) -/

/-- A human review decision resumed into the interrupt: a dict with
optional `type`, `edited_content` and `reason` entries. -/
structure HumanDecision where
  dtype : String
  editedContent : Option String
  reason : Option String
deriving DecidableEq, Repr

/-- Embeds `ContentSafetyFilter._get_rejection_message`. -/
def getRejectionMessage (reason : String) : String :=
  let baseMessage :=
    "Thank you for your question. Based on the nature of your concern, I strongly recommend consulting with a qualified professional who can provide personalized guidance for your child\x27s specific situation.\n\n**Professional resources that may help:**\n- **Pediatrician**: For medical or developmental concerns\n- **Child Psychologist**: For behavioral or emotional concerns\n- **Licensed Therapist**: For ongoing support and intervention strategies\n\nIf this is an emergency situation, please contact:\n- **911** for immediate emergencies\n- **988** for mental health crisis support\n- Your local crisis hotline\n\nI\x27m here to support you with general parenting guidance, but your child\x27s wellbeing may benefit from professional clinical assessment."
  if reason = "" then baseMessage
  else baseMessage ++ "\n\n**Review Note:** " ++ reason

/-- Embeds `ContentSafetyFilter._process_human_decision`. -/
def processHumanDecision (content : String) (decision : Option HumanDecision) :
    String :=
  match decision with
  | none => content
  | some d =>
    if d.dtype = "approve" then content
    else if d.dtype = "edit" then d.editedContent.getD content
    else if d.dtype = "reject" then getRejectionMessage (d.reason.getD "")
    else content

/-- Return record of `check_and_filter` (the `detection_details` entry is
the pair of detections and is omitted as redundant). -/
structure FilterResult where
  filteredContent : String
  safetyFlags : List String
  requiresReview : Bool
  wasInterrupted : Bool
  humanDecision : Option HumanDecision
deriving DecidableEq, Repr

/-- Embeds `ContentSafetyFilter.check_and_filter`.  Regex matching on the two
texts is external, so the match results for the user message and the
response are inputs; `resume` is the value the `interrupt` call would
return when the workflow is resumed with a human decision. -/
def checkAndFilter (autoAddDisclaimers : Bool) (content userMessage : String)
    (userMatches respMatches : MatchResults) (enableHitl : Bool)
    (resume : Option HumanDecision) : FilterResult :=
  let userDetection : Option DetectionResult :=
    if userMessage ≠ "" then some (detectSensitiveContent userMatches) else none
  let respDetection := detectSensitiveContent respMatches
  let allFlags :=
    ((match userDetection with | some u => u.flags | none => []) ++
      respDetection.flags).dedup
  let requiresReview :=
    respDetection.requiresReview ||
      (match userDetection with | some u => u.requiresReview | none => false)
  let shouldInterruptNow := enableHitl && requiresReview
  if shouldInterruptNow then
    let filtered :=
      if autoAddDisclaimers then
        formatResponseWithDisclaimers content allFlags false
      else content
    let humanDecision := resume
    let filtered := processHumanDecision filtered humanDecision
    { filteredContent := filtered
      safetyFlags := allFlags
      requiresReview := requiresReview
      wasInterrupted := true
      humanDecision := humanDecision }
  else if autoAddDisclaimers && ¬ allFlags.isEmpty then
    { filteredContent := formatResponseWithDisclaimers content allFlags false
      safetyFlags := allFlags
      requiresReview := requiresReview
      wasInterrupted := false
      humanDecision := none }
  else
    { filteredContent := content
      safetyFlags := allFlags
      requiresReview := requiresReview
      wasInterrupted := false
      humanDecision := none }

/-! ## Skill applicability scoring (`app/agents/skills/base.py`) -/

/-- Python `str.lower()`. -/
def pyLower (s : String) : String := ⟨s.data.map Char.toLower⟩

/-- Embeds `SkillMetadata` (pydantic model). -/
structure SkillMetadata where
  name : String
  description : String
  applicableAges : Int × Int
  bestFor : List String
  keywords : List String
deriving DecidableEq, Repr

/-- Embeds `PsychologicalSkill.is_applicable`.  Python sets are modelled as
deduplicated lowercased lists; the float constants 0.3 and 0.2 are the
rationals they denote. -/
def isApplicable (m : SkillMetadata) (childAge : Int)
    (issueKeywords : List String) : Bool × ℚ :=
  let minAge := m.applicableAges.1
  let maxAge := m.applicableAges.2
  if ¬ (minAge ≤ childAge ∧ childAge ≤ maxAge) then (false, 0)
  else
    let skillKeywords := (m.keywords.map pyLower).dedup
    let issueKeywordsSet := (issueKeywords.map pyLower).dedup
    let matchedKeywords := skillKeywords ∩ issueKeywordsSet
    let relevanceScore : ℚ :=
      if skillKeywords ≠ [] then
        (matchedKeywords.length : ℚ) / (skillKeywords.length : ℚ)
      else 0
    let bestForSet := (m.bestFor.map pyLower).dedup
    let bestForMatches := bestForSet ∩ issueKeywordsSet
    let relevanceScore :=
      if bestForMatches ≠ [] then relevanceScore + 3/10 else relevanceScore
    let relevanceScore := min relevanceScore 1
    (relevanceScore > 1/5, relevanceScore)

/-! ## Memory store (`app/memory/backends.py`)

The `AsyncPostgresStore` is modelled as a list of namespaced keyed items;
`aput` replaces an item when its namespace and key already exist and
appends otherwise, `asearch` (without a query) lists a namespace up to a
limit, `adelete` removes one key.  Keys (uuid strings in the source) are
modelled as `Nat`; the value payload type is a parameter. -/

/-- One stored item, scoped to the namespace `(child_<id>, memory_type)`. -/
structure MemItem (V : Type) where
  childId : Nat
  memoryType : String
  key : Nat
  value : V
deriving DecidableEq, Repr

/-- Does the item sit at the given namespace and key? -/
def MemItem.at {V} (it : MemItem V) (cid : Nat) (mtype : String) (key : Nat) :
    Bool :=
  it.childId == cid && it.memoryType == mtype && it.key == key

/-- Is the item in the given namespace? -/
def MemItem.inNs {V} (it : MemItem V) (cid : Nat) (mtype : String) : Bool :=
  it.childId == cid && it.memoryType == mtype

/-- Embeds `store.aput namespace key data` (insert or replace). -/
def aput {V} (store : List (MemItem V)) (cid : Nat) (mtype : String)
    (key : Nat) (v : V) : List (MemItem V) :=
  if store.any (fun it => it.at cid mtype key) then
    store.map (fun it => if it.at cid mtype key then { it with value := v } else it)
  else
    store ++ [⟨cid, mtype, key, v⟩]

/-- Embeds `store.aget namespace key`. -/
def aget {V} (store : List (MemItem V)) (cid : Nat) (mtype : String)
    (key : Nat) : Option V :=
  (store.find? (fun it => it.at cid mtype key)).map (·.value)

/-- Embeds `store.asearch namespace limit` without a query: all items of the
namespace, up to `limit`. -/
def asearch {V} (store : List (MemItem V)) (cid : Nat) (mtype : String)
    (limit : Nat) : List (MemItem V) :=
  (store.filter (fun it => it.inNs cid mtype)).take limit

/-- Embeds `store.adelete namespace key`. -/
def adelete {V} (store : List (MemItem V)) (cid : Nat) (mtype : String)
    (key : Nat) : List (MemItem V) :=
  store.filter (fun it => !(it.at cid mtype key))

/-- Embeds `MemoryBackends.list_memories` (default `limit=100`), returning the
item values. -/
def listMemories {V} (store : List (MemItem V)) (cid : Nat) (mtype : String)
    (limit : Nat := 100) : List V :=
  (asearch store cid mtype limit).map (·.value)

/-- The memory-type list iterated by
`MemoryBackends.delete_all_child_memories` (and by `search_memories` as
its default). -/
def memoryTypesAll : List String :=
  ["behavioral_patterns", "developmental_history", "successful_interventions",
   "triggers_and_responses", "timeline_events", "family_context"]

/-- Embeds `MemoryBackends.delete_all_child_memories`: per memory type, list the
namespace with `limit=1000` and delete each listed key. -/
def deleteAllChildMemories {V} (store : List (MemItem V)) (cid : Nat) :
    List (MemItem V) :=
  memoryTypesAll.foldl
    (fun st mtype =>
      (asearch st cid mtype 1000).foldl
        (fun st2 it => adelete st2 cid mtype it.key) st)
    store

/-! ## Memory manager (`app/memory/manager.py`) -/

/-- Embeds `BehavioralPattern` (`app/memory/schemas.py`); timestamps are `Int`. -/
structure BehavioralPattern where
  behavior : String
  context : String
  frequency : String
  triggers : List String
  severity : String
  firstObserved : Int
  lastObserved : Int
  notes : Option String
deriving DecidableEq, Repr

/-- Embeds `MemoryManager.add_behavioral_pattern`.  The generated uuid
(`patternId`) and the clock (`now`) are external inputs.  Returns the new
store and the returned pattern id. -/
def addBehavioralPattern (store : List (MemItem BehavioralPattern))
    (cid : Nat) (behavior context frequency : String) (triggers : List String)
    (severity : String := "mild") (notes : Option String := none)
    (patternId : Nat) (now : Int) :
    List (MemItem BehavioralPattern) × Nat :=
  let pattern : BehavioralPattern :=
    { behavior := behavior, context := context, frequency := frequency
      triggers := triggers, severity := severity
      firstObserved := now, lastObserved := now, notes := notes }
  (aput store cid "behavioral_patterns" patternId pattern, patternId)

/-- Embeds `MemoryManager.update_behavioral_pattern`.  Each optional argument is
guarded by Python truthiness (`if frequency:` skips `None` and also the
empty string; `if new_triggers:` skips `None` and the empty list); the
trigger update is `list(set(existing + new))`, modelled as `dedup` of the
append.  Returns (success flag, new store). -/
def updateBehavioralPattern (store : List (MemItem BehavioralPattern))
    (cid : Nat) (patternId : Nat) (lastObserved : Option Int := none)
    (frequency : Option String := none) (severity : Option String := none)
    (newTriggers : Option (List String) := none)
    (notes : Option String := none) :
    Bool × List (MemItem BehavioralPattern) :=
  match aget store cid "behavioral_patterns" patternId with
  | none => (false, store)
  | some existing =>
    let e := existing
    let e := match lastObserved with
      | some t => { e with lastObserved := t }
      | none => e
    let e := match frequency with
      | some f => if f ≠ "" then { e with frequency := f } else e
      | none => e
    let e := match severity with
      | some s => if s ≠ "" then { e with severity := s } else e
      | none => e
    let e := match newTriggers with
      | some ts =>
        if ts ≠ [] then { e with triggers := (e.triggers ++ ts).dedup } else e
      | none => e
    let e := match notes with
      | some n => if n ≠ "" then { e with notes := some n } else e
      | none => e
    (true, aput store cid "behavioral_patterns" patternId e)

/-- Embeds `MemoryManager.delete_all_memories`. -/
def deleteAllMemories {V} (store : List (MemItem V)) (cid : Nat) :
    List (MemItem V) :=
  deleteAllChildMemories store cid

/-! ## Temporal pattern analysis (`app/memory/manager.py`) -/

/-- The `data` payload of one candidate from the semantic search, with the
fields `get_temporal_pattern_analysis` reads. -/
structure PatternData where
  lastObserved : Int
  frequency : String
deriving DecidableEq, Repr

/-- Stable insertion step for a descending sort by `lastObserved`
(`sorted(..., key=..., reverse=True)`). -/
def insertDesc (x : PatternData) : List PatternData → List PatternData
  | [] => [x]
  | y :: ys =>
    if x.lastObserved < y.lastObserved then y :: insertDesc x ys
    else x :: y :: ys

/-- Stable descending sort by `lastObserved`. -/
def sortDesc : List PatternData → List PatternData
  | [] => []
  | x :: xs => insertDesc x (sortDesc xs)

/-- Embeds `MemoryManager._calculate_trend`. -/
def calculateTrend (now : Int) (timeSorted : List PatternData)
    (daysBack : Nat) : String :=
  if timeSorted.length < 2 then "insufficient_data"
  else
    let midPoint := daysBack / 2
    let cutoff := now - (midPoint : Int)
    let recentHalf :=
      (timeSorted.filter (fun p => decide (cutoff ≤ p.lastObserved))).length
    let olderHalf := timeSorted.length - recentHalf
    if (recentHalf : ℚ) > (olderHalf : ℚ) * 1.5 then "increasing"
    else if (olderHalf : ℚ) > (recentHalf : ℚ) * 1.5 then "decreasing"
    else "stable"

/-- Output record of `get_temporal_pattern_analysis`.  The frequency
histogram (a `defaultdict(int)`) is modelled as its count function. -/
structure TemporalAnalysis where
  totalRelevantPatterns : Nat
  recentPatternCount : Nat
  daysAnalyzed : Nat
  frequencyDistribution : String → Nat
  recentOccurrences : List PatternData
  trend : String

/-- Embeds `MemoryManager.get_temporal_pattern_analysis`, as a function of the
candidate list returned by the (external) semantic search with
`limit=50` and of the clock. -/
def getTemporalPatternAnalysis (now : Int) (patterns : List PatternData)
    (daysBack : Nat) : TemporalAnalysis :=
  let cutoffDate := now - (daysBack : Int)
  let recentPatterns :=
    patterns.filter (fun p => decide (cutoffDate ≤ p.lastObserved))
  let frequencyCounts : String → Nat := fun f =>
    (recentPatterns.filter (fun p => p.frequency == f)).length
  let timeSorted := sortDesc recentPatterns
  { totalRelevantPatterns := patterns.length
    recentPatternCount := recentPatterns.length
    daysAnalyzed := daysBack
    frequencyDistribution := frequencyCounts
    recentOccurrences := timeSorted.take 10
    trend := calculateTrend now timeSorted daysBack }

/-! ## Question agents (`app/agents/subagents/simple_question_agent.py`,
`followup_question_agent.py`) -/

/-- Embeds `QuestionGenerationResult` (pydantic, `question_count` validated to
2..5). -/
structure QuestionGenerationResult where
  questionCount : Nat
  questions : List String
  reasoning : String
deriving DecidableEq, Repr

/-- Outcome of the external structured LLM call. -/
inductive LLMCallOutcome (α : Type) where
  | ok (result : α)
  | timeout
  | failure (errorName : String)
deriving DecidableEq, Repr

/-- The literal fallback question list of `SimpleQuestionAgent`. -/
def simpleDefaultQuestions : List String :=
  ["How long has this been happening?",
   "How often does this occur?",
   "Can you describe a typical situation when this occurs?"]

/-- Embeds `SimpleQuestionAgent.generate_questions`: the LLM call outcome is an
input; a timeout or any other error falls back to the literal default
set. -/
def generateQuestions (llm : LLMCallOutcome QuestionGenerationResult) :
    QuestionGenerationResult :=
  match llm with
  | .ok r =>
    { questionCount := r.questionCount, questions := r.questions
      reasoning := r.reasoning }
  | .timeout =>
    { questionCount := 3, questions := simpleDefaultQuestions
      reasoning := "Fallback questions due to LLM timeout" }
  | .failure e =>
    { questionCount := 3, questions := simpleDefaultQuestions
      reasoning := "Fallback questions due to error: " ++ e }

/-- Embeds `FollowupGenerationResult` (pydantic, `question_count` validated to
1..3). -/
structure FollowupGenerationResult where
  questionCount : Nat
  questions : List String
  keyInsightsSoFar : String
  areasNeedingClarification : List String
deriving DecidableEq, Repr

/-- The literal fallback follow-up question list of
`FollowupQuestionAgent`. -/
def followupDefaultQuestions : List String :=
  ["Is there anything else you think is important for me to know?",
   "What outcome are you hoping for? What would success look like for you?"]

/-- Embeds `FollowupQuestionAgent.generate_followups`: any exception from the
LLM call falls back to the literal default follow-up set. -/
def generateFollowups (llm : Option FollowupGenerationResult) :
    FollowupGenerationResult :=
  match llm with
  | some r => r
  | none =>
    { questionCount := 2, questions := followupDefaultQuestions
      keyInsightsSoFar := "Review of initial answers incomplete due to error"
      areasNeedingClarification := ["General context"] }

/-! ## Theorems -/

/-- C3: Safety severity is evaluated in fixed priority order over the
detected flag set: CRITICAL when the emergency or harm flag is present
(irrespective of other flags), else HIGH when the medical-advice flag is
present or the developmental-concern and medical flags co-occur, else
MODERATE when any medical or developmental flag is present, else SAFE
when no flags are present; and requires_review is true exactly when
severity is not SAFE. -/
theorem C3_severity_priority (m : MatchResults) :
    let d := detectSensitiveContent m
    (d.sensitivityLevel = .critical ↔
      (m.emergencyMatches ≠ [] ∨ m.harmMatches ≠ [])) ∧
    (d.sensitivityLevel = .high ↔
      (m.emergencyMatches = [] ∧ m.harmMatches = [] ∧
        (m.medicalAdviceMatches ≠ [] ∨
          (m.developmentalMatches ≠ [] ∧ m.medicalMatches ≠ [])))) ∧
    (d.sensitivityLevel = .moderate ↔
      (m.emergencyMatches = [] ∧ m.harmMatches = [] ∧
        ¬ (m.medicalAdviceMatches ≠ [] ∨
            (m.developmentalMatches ≠ [] ∧ m.medicalMatches ≠ [])) ∧
        (m.medicalMatches ≠ [] ∨ m.developmentalMatches ≠ []))) ∧
    (d.sensitivityLevel = .safe ↔
      (m.emergencyMatches = [] ∧ m.harmMatches = [] ∧
        m.medicalAdviceMatches = [] ∧ m.medicalMatches = [] ∧
        m.developmentalMatches = [])) ∧
    (d.requiresReview = true ↔ d.sensitivityLevel ≠ .safe) := by
  rcases m with ⟨e, h, a, md, dv⟩
  cases e <;> cases h <;> cases a <;> cases md <;> cases dv <;>
    simp [detectSensitiveContent, buildFlags, assessSeverity]

/-- C6: With human-in-the-loop disabled, the content safety filter never
interrupts and records no human decision; it still reports the combined
flag set and the combined requires-review verdict, and appends the
per-category disclaimers exactly when the combined flag set is non-empty
(`formatResponseWithDisclaimers` is the identity on an empty flag list) —
this holds for every detection outcome, including CRITICAL ones, as the
final concrete conjunct shows. -/
theorem C6_hitl_disabled_never_suspends (content userMessage : String)
    (userMatches respMatches : MatchResults)
    (resume : Option HumanDecision) :
    (let r := checkAndFilter true content userMessage userMatches
        respMatches false resume
    r.wasInterrupted = false ∧
    r.humanDecision = none ∧
    r.safetyFlags =
      ((if userMessage ≠ "" then buildFlags userMatches else []) ++
        buildFlags respMatches).dedup ∧
    r.requiresReview =
      ((detectSensitiveContent respMatches).requiresReview ||
        (if userMessage ≠ "" then
          (detectSensitiveContent userMatches).requiresReview
        else false)) ∧
    r.filteredContent =
      formatResponseWithDisclaimers content r.safetyFlags false) ∧
    (let mCrit : MatchResults := ⟨["emergency"], [], [], [], []⟩
    let rCrit := checkAndFilter true "draft" "msg" mCrit mCrit false none
    (detectSensitiveContent mCrit).sensitivityLevel = .critical ∧
    rCrit.wasInterrupted = false ∧
    rCrit.humanDecision = none ∧
    rCrit.filteredContent =
      formatResponseWithDisclaimers "draft" ["emergency"] false) := by
  constructor
  · show (checkAndFilter _ _ _ _ _ _ _).wasInterrupted = false ∧ _
    unfold checkAndFilter
    by_cases hu : userMessage ≠ "" <;>
      simp only [hu, if_true, if_false, ite_true, ite_false, reduceIte,
        Bool.false_and, Bool.true_and, if_neg (by simp : ¬(False : Prop))] <;>
      by_cases hf : (((if userMessage ≠ "" then buildFlags userMatches
          else []) ++ buildFlags respMatches).dedup).isEmpty <;>
      simp_all [checkAndFilter, detectSensitiveContent,
        formatResponseWithDisclaimers, List.isEmpty_iff]
  · refine ⟨by decide, ?_, ?_, ?_⟩ <;>
      simp [checkAndFilter, detectSensitiveContent, buildFlags,
        assessSeverity, buildMatchedTerms]

/-- Removing duplicates does not change the keyword set. -/
lemma dedup_toFinset (l : List String) : l.dedup.toFinset = l.toFinset := by
  ext a
  simp [List.mem_dedup]

/-- The length of the intersection of two deduplicated lists is the card
of the intersection of their keyword sets. -/
lemma dedup_inter_length (l₁ l₂ : List String) :
    (l₁.dedup ∩ l₂.dedup).length = (l₁.toFinset ∩ l₂.toFinset).card := by
  have hnd : (l₁.dedup ∩ l₂.dedup).Nodup := (l₁.nodup_dedup).inter _
  rw [← List.toFinset_card_of_nodup hnd, List.toFinset_inter,
    dedup_toFinset, dedup_toFinset]

/-- Emptiness of the intersection of deduplicated lists matches emptiness
of the intersection of the keyword sets. -/
lemma dedup_inter_ne_nil (l₁ l₂ : List String) :
    l₁.dedup ∩ l₂.dedup ≠ [] ↔ l₁.toFinset ∩ l₂.toFinset ≠ ∅ := by
  apply not_congr
  simp [List.eq_nil_iff_forall_not_mem, Finset.eq_empty_iff_forall_not_mem,
    List.mem_inter_iff, List.mem_dedup, List.mem_toFinset]

/-- A deduplicated list is non-nil exactly when its keyword set is
non-empty. -/
lemma dedup_ne_nil_iff_toFinset (l : List String) :
    l.dedup ≠ [] ↔ l.toFinset ≠ ∅ := by
  apply not_congr
  simp [List.eq_nil_iff_forall_not_mem, Finset.eq_empty_iff_forall_not_mem,
    List.mem_dedup, List.mem_toFinset]

/-- C4: For every lens and every (age, keyword set) input: an age outside
the inclusive [min, max] range gives (not applicable, score 0) regardless
of keyword overlap; otherwise the score is |keywords ∩ lens.keywords| /
|lens.keywords| (0 when the lens has no keywords), plus 0.3 when
keywords ∩ lens.best_for is non-empty, clamped to [0, 1], and the lens is
applicable iff the score exceeds 0.2; the demo lens with keywords
{tantrum, reward}, best_for {discipline}, age range (2, 18) scores 0.8 and
is applicable at age 10 with input keywords {tantrum, discipline}, and is
not applicable at age 25. -/
theorem C4_skill_applicability (m : SkillMetadata) (age : Int)
    (issue : List String) :
    (isApplicable m age issue =
      if m.applicableAges.1 ≤ age ∧ age ≤ m.applicableAges.2 then
        (let sk := (m.keywords.map pyLower).toFinset
        let isk := (issue.map pyLower).toFinset
        let bf := (m.bestFor.map pyLower).toFinset
        let score : ℚ :=
          min ((if sk = ∅ then 0 else ((sk ∩ isk).card : ℚ) / (sk.card : ℚ))
            + (if bf ∩ isk ≠ ∅ then 3/10 else 0)) 1
        (decide (score > 1/5), score))
      else (false, 0)) ∧
    (let demoLens : SkillMetadata :=
      { name := "demo", description := "demo", applicableAges := (2, 18)
        bestFor := ["discipline"], keywords := ["tantrum", "reward"] }
    isApplicable demoLens 10 ["tantrum", "discipline"] = (true, 4/5) ∧
    isApplicable demoLens 25 ["tantrum", "discipline"] = (false, 0)) := by
  refine ⟨?_, ?_, ?_⟩
  · by_cases h : m.applicableAges.1 ≤ age ∧ age ≤ m.applicableAges.2
    · rw [if_pos h]
      simp only [isApplicable, if_neg (not_not_intro h)]
      have h1 := dedup_inter_length (m.keywords.map pyLower) (issue.map pyLower)
      have h2 : (m.keywords.map pyLower).dedup.length =
          (m.keywords.map pyLower).toFinset.card :=
        (List.card_toFinset _).symm
      have h3 := dedup_ne_nil_iff_toFinset (m.keywords.map pyLower)
      have h4 := dedup_inter_ne_nil (m.bestFor.map pyLower) (issue.map pyLower)
      have hbase :
          (if (m.keywords.map pyLower).dedup ≠ [] then
            ((((m.keywords.map pyLower).dedup ∩
              (issue.map pyLower).dedup).length : ℚ) /
              (((m.keywords.map pyLower).dedup.length : ℚ)))
          else 0)
          = (if (m.keywords.map pyLower).toFinset = ∅ then 0
            else ((((m.keywords.map pyLower).toFinset ∩
              (issue.map pyLower).toFinset).card : ℚ) /
              (((m.keywords.map pyLower).toFinset.card : ℚ)))) := by
        by_cases hk : (m.keywords.map pyLower).toFinset = ∅
        · rw [if_pos hk, if_neg (fun hA => (h3.mp hA) hk)]
        · rw [if_neg hk, if_pos (h3.mpr hk), h1, h2]
      have hscore :
          (if (m.bestFor.map pyLower).dedup ∩ (issue.map pyLower).dedup ≠ [] then
            (if (m.keywords.map pyLower).dedup ≠ [] then
              ((((m.keywords.map pyLower).dedup ∩
                (issue.map pyLower).dedup).length : ℚ) /
                (((m.keywords.map pyLower).dedup.length : ℚ)))
            else 0) + 3/10
          else
            (if (m.keywords.map pyLower).dedup ≠ [] then
              ((((m.keywords.map pyLower).dedup ∩
                (issue.map pyLower).dedup).length : ℚ) /
                (((m.keywords.map pyLower).dedup.length : ℚ)))
            else 0))
          = (if (m.keywords.map pyLower).toFinset = ∅ then 0
            else ((((m.keywords.map pyLower).toFinset ∩
              (issue.map pyLower).toFinset).card : ℚ) /
              (((m.keywords.map pyLower).toFinset.card : ℚ)))) +
            (if (m.bestFor.map pyLower).toFinset ∩
                (issue.map pyLower).toFinset ≠ ∅ then (3 : ℚ)/10 else 0) := by
        by_cases hbf : (m.bestFor.map pyLower).toFinset ∩
            (issue.map pyLower).toFinset = ∅
        · rw [if_neg (fun hA => (h4.mp hA) hbf), if_neg (not_not_intro hbf),
            hbase, add_zero]
        · rw [if_pos (h4.mpr hbf), if_pos hbf, hbase]
      rw [hscore]
    · rw [if_neg h]
      simp only [isApplicable, if_pos h]
  · have e1 : (["tantrum", "reward"].map pyLower).dedup =
        ["tantrum", "reward"] := by decide
    have e2 : (["tantrum", "discipline"].map pyLower).dedup =
        ["tantrum", "discipline"] := by decide
    have e3 : (["discipline"].map pyLower).dedup = ["discipline"] := by decide
    have e4 : (["tantrum", "reward"] : List String) ∩
        ["tantrum", "discipline"] = ["tantrum"] := by decide
    have e5 : (["discipline"] : List String) ∩ ["tantrum", "discipline"] =
        ["discipline"] := by decide
    have e6 : ¬((["tantrum", "reward"] : List String) = []) := by simp
    simp only [isApplicable, e1, e2, e3, e4, e5]
    norm_num [min_def, e6]
  · norm_num [isApplicable]

/-- Inserting into the descending sort is a permutation. -/
lemma insertDesc_perm (x : PatternData) (l : List PatternData) :
    List.Perm (insertDesc x l) (x :: l) := by
  induction l with
  | nil => simp [insertDesc]
  | cons y ys ih =>
    by_cases h : x.lastObserved < y.lastObserved
    · simp only [insertDesc, if_pos h]
      exact (ih.cons y).trans (List.Perm.swap x y ys)
    · simp [insertDesc, if_neg h]

/-- The descending sort is a permutation of its input. -/
lemma sortDesc_perm (l : List PatternData) : List.Perm (sortDesc l) l := by
  induction l with
  | nil => simp [sortDesc]
  | cons x xs ih => exact (insertDesc_perm x (sortDesc xs)).trans (ih.cons x)

/-- C5: Temporal pattern analysis keeps exactly the candidates with
last_observed at or after now − days_back, reports the total and kept
counts, the frequency-label histogram over the kept records, and the 10
most-recent kept records; the trend label is "insufficient_data" when
fewer than 2 records survive the filter, and otherwise compares the
recent-half count (records at or after the window midpoint) with the
older-half count: "increasing" when recent > 1.5×older, "decreasing" when
older > 1.5×recent, else "stable".  Concretely, 10 kept records in the
recent half of a 90-day window against 2 in the older half yields
"increasing", and a single kept record yields "insufficient_data". -/
theorem C5_temporal_analysis (now : Int) (patterns : List PatternData)
    (daysBack : Nat) :
    (let r := getTemporalPatternAnalysis now patterns daysBack
    let kept := patterns.filter
      (fun p => decide (now - (daysBack : Int) ≤ p.lastObserved))
    r.totalRelevantPatterns = patterns.length ∧
    r.recentPatternCount = kept.length ∧
    r.daysAnalyzed = daysBack ∧
    (∀ f, r.frequencyDistribution f =
      (kept.filter (fun p => p.frequency == f)).length) ∧
    r.recentOccurrences = (sortDesc kept).take 10 ∧
    (let recentHalf := (kept.filter (fun p =>
      decide (now - ((daysBack / 2 : Nat) : Int) ≤ p.lastObserved))).length
    let olderHalf := kept.length - recentHalf
    r.trend =
      if kept.length < 2 then "insufficient_data"
      else if (recentHalf : ℚ) > (olderHalf : ℚ) * 1.5 then "increasing"
      else if (olderHalf : ℚ) > (recentHalf : ℚ) * 1.5 then "decreasing"
      else "stable")) ∧
    (getTemporalPatternAnalysis 0
      [⟨-10, "daily"⟩, ⟨-10, "daily"⟩, ⟨-10, "daily"⟩, ⟨-10, "daily"⟩,
       ⟨-10, "daily"⟩, ⟨-10, "daily"⟩, ⟨-10, "daily"⟩, ⟨-10, "daily"⟩,
       ⟨-10, "daily"⟩, ⟨-10, "daily"⟩, ⟨-60, "daily"⟩, ⟨-60, "daily"⟩]
      90).trend = "increasing" ∧
    (getTemporalPatternAnalysis 0 [⟨-10, "daily"⟩] 90).trend =
      "insufficient_data" := by
  refine ⟨?_, ?_, ?_⟩
  · intro r kept
    have hlen : (sortDesc kept).length = kept.length :=
      (sortDesc_perm kept).length_eq
    have hcnt : ((sortDesc kept).filter (fun p =>
        decide (now - ((daysBack / 2 : Nat) : Int) ≤ p.lastObserved))).length
        = (kept.filter (fun p =>
        decide (now - ((daysBack / 2 : Nat) : Int) ≤ p.lastObserved))).length :=
      ((sortDesc_perm kept).filter _).length_eq
    refine ⟨rfl, rfl, rfl, fun f => rfl, rfl, ?_⟩
    have ht : r.trend = calculateTrend now (sortDesc kept) daysBack := rfl
    rw [ht]
    simp only [calculateTrend, hlen, hcnt]
  · norm_num [getTemporalPatternAnalysis, calculateTrend, sortDesc,
      insertDesc, List.filter]
  · norm_num [getTemporalPatternAnalysis, calculateTrend, sortDesc,
      insertDesc, List.filter]

/-- C9: When the question-generation LLM call times out or raises, the
phase-1 agent returns the fixed literal default set of exactly 3 questions
with question_count 3 (within the declared 2–5 bounds), and the phase-2
follow-up agent returns the fixed literal default set of exactly 2
follow-up questions with question_count 2 (within the declared 1–3
bounds); the run is not failed — the fallback is an ordinary return
value. -/
theorem C9_generation_fallbacks (e : String) :
    generateQuestions .timeout =
      { questionCount := 3, questions := simpleDefaultQuestions
        reasoning := "Fallback questions due to LLM timeout" } ∧
    generateQuestions (.failure e) =
      { questionCount := 3, questions := simpleDefaultQuestions
        reasoning := "Fallback questions due to error: " ++ e } ∧
    simpleDefaultQuestions.length = 3 ∧
    (generateQuestions .timeout).questionCount = 3 ∧
    2 ≤ (generateQuestions .timeout).questionCount ∧
    (generateQuestions .timeout).questionCount ≤ 5 ∧
    generateFollowups none =
      { questionCount := 2, questions := followupDefaultQuestions
        keyInsightsSoFar := "Review of initial answers incomplete due to error"
        areasNeedingClarification := ["General context"] } ∧
    followupDefaultQuestions.length = 2 ∧
    (generateFollowups none).questionCount = 2 ∧
    1 ≤ (generateFollowups none).questionCount ∧
    (generateFollowups none).questionCount ≤ 3 := by
  refine ⟨rfl, rfl, ?_⟩
  simp [generateQuestions, generateFollowups, simpleDefaultQuestions,
    followupDefaultQuestions]

/-- Deleting, one by one, the keys of a snapshot list `L` from a store
(the inner loop of `delete_all_child_memories`) removes exactly the items
of the targeted namespace whose key occurs in `L`. -/
lemma foldl_adelete_eq_filter {V : Type} (cid : Nat) (mtype : String) :
    ∀ (L : List (MemItem V)) (store : List (MemItem V)),
      L.foldl (fun st it => adelete st cid mtype it.key) store =
        store.filter (fun it =>
          !(it.childId == cid && it.memoryType == mtype &&
            decide (it.key ∈ L.map MemItem.key))) := by
  intro L
  induction L with
  | nil =>
    intro store
    simp
  | cons x L ih =>
    intro store
    rw [List.foldl_cons, ih, adelete, List.filter_filter]
    apply List.filter_congr
    intro a _
    simp only [MemItem.at, List.map_cons, List.mem_cons]
    by_cases h1 : a.childId = cid <;> by_cases h2 : a.memoryType = mtype <;>
      by_cases h3 : a.key = x.key <;>
      by_cases h4 : a.key ∈ L.map MemItem.key <;>
      simp [h1, h2, h3, h4]

/-- A store item for the overflow scenario: child 7, namespace
behavioral_patterns, key `i`, payload `i`. -/
def mkBP (i : Nat) : MemItem Nat := ⟨7, "behavioral_patterns", i, i⟩

/-- A store whose behavioral_patterns namespace for child 7 holds 1001
records. -/
def bigStore : List (MemItem Nat) := (List.range 1001).map mkBP

/-- C7 (failing-input evaluation): erase-all is bounded by the
`limit=1000` of the namespace listing, so on a store holding 1001 records
in one namespace the record listed 1001st survives `delete_all_memories`,
and listing that namespace afterwards is non-empty — against the claim
that erase-all empties every namespace whatever number of records each
held. -/
theorem C7_erase_all_misses_overflow :
    bigStore.length = 1001 ∧
    listMemories (deleteAllMemories bigStore 7) 7 "behavioral_patterns" =
      [1000] ∧
    listMemories (deleteAllMemories bigStore 7) 7 "behavioral_patterns" ≠
      [] := by
  have hfil : bigStore.filter (fun it => it.inNs 7 "behavioral_patterns") =
      bigStore := by
    apply List.filter_eq_self.mpr
    intro a ha
    obtain ⟨i, _, rfl⟩ := List.mem_map.mp ha
    simp [MemItem.inNs, mkBP]
  have htake : (List.range 1001).take 1000 = List.range 1000 := by
    rw [List.take_range]
    congr 1
  have hsearch : asearch bigStore 7 "behavioral_patterns" 1000 =
      (List.range 1000).map mkBP := by
    rw [asearch, hfil, bigStore, ← List.map_take, htake]
  have hkeys : ((List.range 1000).map mkBP).map MemItem.key =
      List.range 1000 := by
    rw [List.map_map]
    exact List.map_id _
  have hr : List.range 1001 = List.range 1000 ++ [1000] := by
    rw [show (1001 : Nat) = Nat.succ 1000 from rfl, List.range_succ]
  have hnil : ∀ a ∈ (List.range 1000).map mkBP,
      ¬ ((fun (it : MemItem Nat) =>
        !(it.childId == 7 && it.memoryType == "behavioral_patterns" &&
          decide (it.key ∈ List.range 1000))) a = true) := by
    intro a ha
    obtain ⟨i, hi, rfl⟩ := List.mem_map.mp ha
    simp [mkBP, List.mem_range.mp hi]
  have hst1 : (bigStore.filter (fun it =>
      !(it.childId == 7 && it.memoryType == "behavioral_patterns" &&
        decide (it.key ∈ List.range 1000)))) = [mkBP 1000] := by
    rw [bigStore, hr, List.map_append, List.filter_append,
      List.filter_eq_nil_iff.mpr hnil, List.nil_append]
    simp [mkBP, List.mem_range]
  have step1 : (asearch bigStore 7 "behavioral_patterns" 1000).foldl
      (fun st2 it => adelete st2 7 "behavioral_patterns" it.key) bigStore =
      [mkBP 1000] := by
    rw [hsearch, foldl_adelete_eq_filter, hkeys, hst1]
  have hdel : deleteAllChildMemories bigStore 7 = [mkBP 1000] := by
    unfold deleteAllChildMemories memoryTypesAll
    rw [List.foldl_cons, step1]
    rw [List.foldl_cons, show asearch [mkBP 1000] 7 "developmental_history"
      1000 = ([] : List (MemItem Nat)) from by decide, List.foldl_nil]
    rw [List.foldl_cons, show asearch [mkBP 1000] 7 "successful_interventions"
      1000 = ([] : List (MemItem Nat)) from by decide, List.foldl_nil]
    rw [List.foldl_cons, show asearch [mkBP 1000] 7 "triggers_and_responses"
      1000 = ([] : List (MemItem Nat)) from by decide, List.foldl_nil]
    rw [List.foldl_cons, show asearch [mkBP 1000] 7 "timeline_events"
      1000 = ([] : List (MemItem Nat)) from by decide, List.foldl_nil]
    rw [List.foldl_cons, show asearch [mkBP 1000] 7 "family_context"
      1000 = ([] : List (MemItem Nat)) from by decide]
    rfl
  refine ⟨?_, ?_, ?_⟩
  · rw [bigStore, List.length_map, List.length_range]
  · rw [deleteAllMemories, hdel]
    decide
  · rw [deleteAllMemories, hdel]
    decide

/-- A one-pattern store (child 7, pattern key 1) used for the update
scenarios. -/
def demoPatternStore : List (MemItem BehavioralPattern) :=
  [⟨7, "behavioral_patterns", 1,
    { behavior := "hits", context := "home", frequency := "daily"
      triggers := ["tired"], severity := "mild"
      firstObserved := 0, lastObserved := 0, notes := none }⟩]

/-- C8 (counterexample): supplying the empty string for `frequency` is a
supplied field, yet Python truthiness (`if frequency:`) ignores it — the
update reports success and the stored frequency stays "daily" instead of
becoming the supplied value, so "updating ... changes ... the supplied
fields" fails as stated. -/
theorem C8_empty_string_update_ignored :
    updateBehavioralPattern demoPatternStore 7 1 none (some "") none none
      none = (true, demoPatternStore) ∧
    (aget demoPatternStore 7 "behavioral_patterns" 1).map
      BehavioralPattern.frequency = some "daily" ∧
    ("daily" : String) ≠ "" := by decide

/-- C8 (amended): appends create a record under the freshly generated key
and never overwrite (the store keeps every prior item and gains exactly
the new one); an update targeting a nonexistent pattern returns false and
changes nothing; an update of an existing pattern with non-falsy supplied
values changes only the supplied fields — last_observed is set to the
supplied timestamp, the trigger list becomes the set union of old and new
triggers (never a replacement), every unsupplied field stays unchanged —
and only the record at the targeted key is modified. -/
theorem C8_append_and_update (store : List (MemItem BehavioralPattern))
    (cid pid : Nat) (now : Int) (behavior context frequency : String)
    (triggers : List String) (severity : String) (notes : Option String)
    (lo : Option Int) (fr sv : Option String) (tr : Option (List String))
    (nt : Option String) :
    ((∀ it ∈ store, it.at cid "behavioral_patterns" pid = false) →
      addBehavioralPattern store cid behavior context frequency triggers
          severity notes pid now =
        (store ++ [⟨cid, "behavioral_patterns", pid,
          { behavior := behavior, context := context, frequency := frequency
            triggers := triggers, severity := severity
            firstObserved := now, lastObserved := now, notes := notes }⟩],
          pid)) ∧
    (aget store cid "behavioral_patterns" pid = none →
      updateBehavioralPattern store cid pid lo fr sv tr nt =
        (false, store)) ∧
    (∀ existing, aget store cid "behavioral_patterns" pid = some existing →
      fr ≠ some "" → sv ≠ some "" → tr ≠ some [] → nt ≠ some "" →
      (let updated : BehavioralPattern :=
        { behavior := existing.behavior
          context := existing.context
          frequency := fr.getD existing.frequency
          triggers := match tr with
            | some ts => (existing.triggers ++ ts).dedup
            | none => existing.triggers
          severity := sv.getD existing.severity
          firstObserved := existing.firstObserved
          lastObserved := lo.getD existing.lastObserved
          notes := match nt with
            | some n => some n
            | none => existing.notes }
      updateBehavioralPattern store cid pid lo fr sv tr nt =
        (true, store.map (fun it =>
          if it.at cid "behavioral_patterns" pid then
            { it with value := updated }
          else it)) ∧
      updated.triggers.toFinset =
        existing.triggers.toFinset ∪ (tr.getD []).toFinset)) := by
  refine ⟨?_, ?_, ?_⟩
  · intro hfresh
    have hany : store.any
        (fun it => it.at cid "behavioral_patterns" pid) = false := by
      rw [List.any_eq_false]
      intro x hx
      simp [hfresh x hx]
    rw [addBehavioralPattern, aput, if_neg (by simp [hany])]
  · intro h
    unfold updateBehavioralPattern
    rw [h]
  · intro existing h hfr hsv htr hnt
    have hany : store.any
        (fun it => it.at cid "behavioral_patterns" pid) = true := by
      rw [aget] at h
      cases hf : store.find? (fun it => it.at cid "behavioral_patterns" pid)
        with
      | none => rw [hf] at h; simp at h
      | some itm =>
        have hp :=
          @List.find?_some _ (fun it => it.at cid "behavioral_patterns" pid)
            itm store hf
        exact List.any_eq_true.mpr ⟨itm, List.mem_of_find?_eq_some hf, hp⟩
    constructor
    · unfold updateBehavioralPattern
      rw [h]
      cases lo <;> cases fr <;> cases sv <;> cases tr <;> cases nt <;>
        simp_all [aput, Option.getD]
    · cases htr2 : tr with
      | none =>
        simp [Option.getD]
      | some ts =>
        have hts : ts ≠ [] := by
          intro hc
          exact htr (by rw [htr2, hc])
        simp [Option.getD, dedup_toFinset, List.toFinset_append]

/-- Witness for `C8_append_and_update` at concrete inputs: a fresh append
on the one-pattern store, an update of a missing pattern id, and an update
of pattern 1 supplying a new last_observed, frequency and trigger. -/
theorem C8_append_and_update_witness :
    (addBehavioralPattern demoPatternStore 7 "bites" "school" "weekly"
        ["noise"] "mild" none 2 5 =
      (demoPatternStore ++ [⟨7, "behavioral_patterns", 2,
        { behavior := "bites", context := "school", frequency := "weekly"
          triggers := ["noise"], severity := "mild"
          firstObserved := 5, lastObserved := 5, notes := none }⟩], 2)) ∧
    (updateBehavioralPattern demoPatternStore 7 99 none none none none
        none = (false, demoPatternStore)) ∧
    (let existing : BehavioralPattern :=
      { behavior := "hits", context := "home", frequency := "daily"
        triggers := ["tired"], severity := "mild"
        firstObserved := 0, lastObserved := 0, notes := none }
    let updated : BehavioralPattern :=
      { behavior := existing.behavior
        context := existing.context
        frequency := (some "hourly").getD existing.frequency
        triggers := (existing.triggers ++ ["hungry"]).dedup
        severity := (none : Option String).getD existing.severity
        firstObserved := existing.firstObserved
        lastObserved := (some (9 : Int)).getD existing.lastObserved
        notes := existing.notes }
    updateBehavioralPattern demoPatternStore 7 1 (some 9) (some "hourly")
        none (some ["hungry"]) none =
      (true, demoPatternStore.map (fun it =>
        if it.at 7 "behavioral_patterns" 1 then { it with value := updated }
        else it)) ∧
      updated.triggers.toFinset =
        existing.triggers.toFinset ∪
          ((some ["hungry"]).getD []).toFinset) :=
  ⟨(C8_append_and_update demoPatternStore 7 2 5 "bites" "school" "weekly"
      ["noise"] "mild" none none none none none none).1 (by decide),
   (C8_append_and_update demoPatternStore 7 99 0 "" "" "" [] "" none
      none none none none none).2.1 (by decide),
   (C8_append_and_update demoPatternStore 7 1 0 "" "" "" [] "" none
      (some 9) (some "hourly") none (some ["hungry"]) none).2.2
     { behavior := "hits", context := "home", frequency := "daily"
       triggers := ["tired"], severity := "mild"
       firstObserved := 0, lastObserved := 0, notes := none }
     (by decide) (by decide) (by decide) (by decide) (by decide)⟩

/-! ## Knowledge-gathering workflow (`app/workflow/nodes.py`, edges wired
in `app/workflow/graph.py`)

Every suspendable node is a first-class state: the machine below has one
control location per graph node of the knowledge-gathering subgraph, and
one step per node execution followed by its (conditional) outgoing edge.
The step inputs are the external values consumed by the node: the answer
resumed into `interrupt()` for the ask nodes, the (pydantic-validated or
fallback) follow-up generation result for `generate_phase_2_questions`,
and the compiled record for `compile_gathered_knowledge`. -/

/-- Control location: which node of the subgraph runs next. -/
inductive KGControl where
  | askPhase1
  | generatePhase2
  | askPhase2
  | compileKnowledge
  | mainWorkflow
deriving DecidableEq, Repr

/-- Position of a control location along the graph edges. -/
def KGControl.rank : KGControl → Nat
  | .askPhase1 => 0
  | .generatePhase2 => 1
  | .askPhase2 => 2
  | .compileKnowledge => 3
  | .mainWorkflow => 4

/-- The knowledge-gathering slice of `TherapistState`, plus the control
location (`gatheredKnowledge` records whether `gathered_knowledge` is
non-null). -/
structure KGState where
  control : KGControl
  phase1Questions : List String
  phase1QuestionCount : Nat
  phase1CurrentIndex : Nat
  phase1Answers : List (String × String)
  phase2Questions : List String
  phase2QuestionCount : Nat
  phase2CurrentIndex : Nat
  phase2Answers : List (String × String)
  knowledgeGatheringPhase : String
  gatheredKnowledge : Bool
deriving DecidableEq, Repr

/-- External input consumed by one step. -/
inductive KGInput where
  | answer (a : String)
  | phase2Result (questions : List String) (questionCount : Nat)
  | compiled
deriving DecidableEq, Repr

/-- One node execution plus its outgoing (conditional) edge:
`ask_phase_1_question` (guard, append answer, increment index, then
`check_phase_1_complete`), `generate_phase_2_questions`,
`ask_phase_2_question` (list indexing raises when the index is past the
end, then `check_phase_2_complete`), `compile_gathered_knowledge`.
Failures (the `ValueError` guard and the out-of-range indexing) are
errors. -/
def kgStep (s : KGState) (i : KGInput) : Except String KGState :=
  match s.control, i with
  | .askPhase1, .answer a =>
    if s.phase1Questions = [] ∨
        s.phase1Questions.length ≤ s.phase1CurrentIndex then
      .error "Invalid phase 1 state"
    else
      let question := s.phase1Questions.getD s.phase1CurrentIndex ""
      let s1 := { s with
        phase1Answers := s.phase1Answers ++ [(question, a)]
        phase1CurrentIndex := s.phase1CurrentIndex + 1 }
      if s1.phase1CurrentIndex < s1.phase1QuestionCount then
        .ok { s1 with control := .askPhase1 }
      else
        .ok { s1 with control := .generatePhase2 }
  | .generatePhase2, .phase2Result qs c =>
    .ok { s with
      phase2Questions := qs
      phase2QuestionCount := c
      phase2CurrentIndex := 0
      phase2Answers := []
      knowledgeGatheringPhase := "phase_2"
      control := .askPhase2 }
  | .askPhase2, .answer a =>
    if s.phase2Questions.length ≤ s.phase2CurrentIndex then
      .error "list index out of range"
    else
      let question := s.phase2Questions.getD s.phase2CurrentIndex ""
      let s1 := { s with
        phase2Answers := s.phase2Answers ++ [(question, a)]
        phase2CurrentIndex := s.phase2CurrentIndex + 1 }
      if s1.phase2CurrentIndex < s1.phase2QuestionCount then
        .ok { s1 with control := .askPhase2 }
      else
        .ok { s1 with control := .compileKnowledge }
  | .compileKnowledge, .compiled =>
    .ok { s with
      gatheredKnowledge := true
      knowledgeGatheringPhase := "complete"
      control := .mainWorkflow }
  | _, _ => .error "input does not match the control location"

/-- The state set up by `generate_phase_1_questions` from a generation
result (or the literal fallback). -/
def kgInitState (qs : List String) (c : Nat) : KGState :=
  { control := .askPhase1
    phase1Questions := qs
    phase1QuestionCount := c
    phase1CurrentIndex := 0
    phase1Answers := []
    phase2Questions := []
    phase2QuestionCount := 0
    phase2CurrentIndex := 0
    phase2Answers := []
    knowledgeGatheringPhase := "phase_1"
    gatheredKnowledge := false }

/-- Reachable states of the knowledge-gathering subgraph.  The initial
question count is 2..5 (`QuestionGenerationResult` is pydantic-validated
to `ge=2, le=5`, and the fallback uses 3); the phase-2 generation result
count is 1..3 (`FollowupGenerationResult` is validated to `ge=1, le=3`,
and the fallback uses 2). -/
inductive KGReachable : KGState → Prop where
  | init (qs : List String) (c : Nat) : 2 ≤ c → c ≤ 5 →
      KGReachable (kgInitState qs c)
  | stepAnswer (s s' : KGState) (a : String) : KGReachable s →
      kgStep s (.answer a) = .ok s' → KGReachable s'
  | stepGen (s s' : KGState) (qs : List String) (c : Nat) : KGReachable s →
      1 ≤ c → c ≤ 3 → kgStep s (.phase2Result qs c) = .ok s' →
      KGReachable s'
  | stepCompile (s s' : KGState) : KGReachable s →
      kgStep s .compiled = .ok s' → KGReachable s'

/-- The inductive invariant: indices never pass the counts, and at an ask
location the active index is strictly below the count. -/
def KGInv (s : KGState) : Prop :=
  s.phase1CurrentIndex ≤ s.phase1QuestionCount ∧
  s.phase2CurrentIndex ≤ s.phase2QuestionCount ∧
  (s.control = .askPhase1 → s.phase1CurrentIndex < s.phase1QuestionCount) ∧
  (s.control = .askPhase2 → s.phase2CurrentIndex < s.phase2QuestionCount)

/-- The successful run of a list of inputs, returning the state trace. -/
def kgRunStates (s : KGState) : List KGInput → Option (List KGState)
  | [] => some []
  | i :: is =>
    match kgStep s i with
    | .ok s' => (kgRunStates s' is).map (s' :: ·)
    | .error _ => none

/-- Number of phase-1-to-phase-2 transitions fired along a state trace. -/
def kgFirings : KGState → List KGState → Nat
  | _, [] => 0
  | s, s' :: rest =>
    (if s.control = .askPhase1 ∧ s'.control = .generatePhase2 then 1
      else 0) + kgFirings s' rest

/-- The invariant holds in every reachable state. -/
lemma kgInv_reachable (s : KGState) (h : KGReachable s) : KGInv s := by
  induction h with
  | init qs c h2 h5 =>
    refine ⟨by simp [kgInitState], by simp [kgInitState], ?_, ?_⟩
    · intro _
      simp [kgInitState]
      omega
    · intro hc
      simp [kgInitState] at hc
  | stepAnswer s s' a hr hstep ih =>
    obtain ⟨c, p1q, p1c, p1i, p1a, p2q, p2c, p2i, p2a, ph, gk⟩ := s
    rcases ih with ⟨i1, i2, i3, i4⟩
    simp only at i1 i2 i3 i4
    cases c <;> simp only [kgStep] at hstep <;>
      try exact Except.noConfusion hstep
    case askPhase1 =>
      split_ifs at hstep with h1 h2
      · simp only [Except.ok.injEq] at hstep
        subst hstep
        simp only at h2
        exact ⟨h2.le, i2, fun _ => h2, fun hcon => by simp at hcon⟩
      · simp only [Except.ok.injEq] at hstep
        subst hstep
        have := i3 rfl
        exact ⟨by simp; omega, i2, fun hcon => by simp at hcon,
          fun hcon => by simp at hcon⟩
    case askPhase2 =>
      split_ifs at hstep with h1 h2
      · simp only [Except.ok.injEq] at hstep
        subst hstep
        simp only at h2
        exact ⟨i1, h2.le, fun hcon => by simp at hcon, fun _ => h2⟩
      · simp only [Except.ok.injEq] at hstep
        subst hstep
        have := i4 rfl
        exact ⟨i1, by simp; omega, fun hcon => by simp at hcon,
          fun hcon => by simp at hcon⟩
  | stepGen s s' qs c hr h1 h3 hstep ih =>
    obtain ⟨ct, p1q, p1c, p1i, p1a, p2q, p2c, p2i, p2a, ph, gk⟩ := s
    rcases ih with ⟨i1, i2, _, _⟩
    simp only at i1 i2
    cases ct <;> simp only [kgStep] at hstep <;>
      try exact Except.noConfusion hstep
    case generatePhase2 =>
      simp only [Except.ok.injEq] at hstep
      subst hstep
      exact ⟨i1, by simp, fun hcon => by simp at hcon, fun _ => by
        simp
        omega⟩
  | stepCompile s s' hr hstep ih =>
    obtain ⟨ct, p1q, p1c, p1i, p1a, p2q, p2c, p2i, p2a, ph, gk⟩ := s
    rcases ih with ⟨i1, i2, _, _⟩
    simp only at i1 i2
    cases ct <;> simp only [kgStep] at hstep <;>
      try exact Except.noConfusion hstep
    case compileKnowledge =>
      simp only [Except.ok.injEq] at hstep
      subst hstep
      exact ⟨i1, i2, fun hcon => by simp at hcon,
        fun hcon => by simp at hcon⟩

/-- A successful step never moves backwards along the graph. -/
lemma kgStep_rank_mono (s s' : KGState) (i : KGInput)
    (h : kgStep s i = .ok s') : s.control.rank ≤ s'.control.rank := by
  obtain ⟨c, p1q, p1c, p1i, p1a, p2q, p2c, p2i, p2a, ph, gk⟩ := s
  cases c <;> cases i <;> simp only [kgStep] at h <;>
    first
      | exact Except.noConfusion h
      | (split_ifs at h <;> simp only [Except.ok.injEq] at h <;>
          subst h <;> simp [KGControl.rank])
      | (simp only [Except.ok.injEq] at h; subst h; simp [KGControl.rank])

/-- The phase-2 generation location is entered only from the phase-1 ask
location. -/
lemma kgStep_gen2_from_ask1 (s s' : KGState) (i : KGInput)
    (h : kgStep s i = .ok s') (h2 : s'.control = .generatePhase2) :
    s.control = .askPhase1 := by
  obtain ⟨c, p1q, p1c, p1i, p1a, p2q, p2c, p2i, p2a, ph, gk⟩ := s
  cases c <;> cases i <;> simp only [kgStep] at h <;>
    first
      | exact Except.noConfusion h
      | rfl
      | (split_ifs at h <;> simp only [Except.ok.injEq] at h <;>
          subst h <;> simp_all)
      | (simp only [Except.ok.injEq] at h; subst h; simp_all)

/-- A control location other than the phase-1 ask has positive rank. -/
lemma kgControl_rank_pos (c : KGControl) (h : c ≠ .askPhase1) :
    1 ≤ c.rank := by
  cases c <;> simp_all [KGControl.rank]

/-- Once past the phase-1 ask location, no later step fires the
phase-1-to-phase-2 transition. -/
lemma kgFirings_zero (inputs : List KGInput) :
    ∀ (s : KGState) (states : List KGState), s.control ≠ .askPhase1 →
      kgRunStates s inputs = some states → kgFirings s states = 0 := by
  induction inputs with
  | nil =>
    intro s states _ hrun
    simp only [kgRunStates, Option.some.injEq] at hrun
    subst hrun
    rfl
  | cons i is ih =>
    intro s states hne hrun
    simp only [kgRunStates] at hrun
    cases hstep : kgStep s i with
    | error e => rw [hstep] at hrun; simp at hrun
    | ok s' =>
      rw [hstep] at hrun
      simp only [Option.map_eq_some'] at hrun
      obtain ⟨rest, hrest, rfl⟩ := hrun
      have hne' : s'.control ≠ .askPhase1 := by
        intro hc
        have hmono := kgStep_rank_mono s s' i hstep
        have hpos := kgControl_rank_pos _ hne
        rw [hc, show KGControl.rank .askPhase1 = 0 from rfl] at hmono
        omega
      have hif : ¬(s.control = KGControl.askPhase1 ∧
          s'.control = KGControl.generatePhase2) := fun hc => hne hc.1
      simp only [kgFirings, if_neg hif, zero_add]
      exact ih s' rest hne' hrest

/-- Along any successful run, the phase-1-to-phase-2 transition fires at
most once. -/
lemma kgFirings_le_one (inputs : List KGInput) :
    ∀ (s : KGState) (states : List KGState),
      kgRunStates s inputs = some states → kgFirings s states ≤ 1 := by
  induction inputs with
  | nil =>
    intro s states hrun
    simp only [kgRunStates, Option.some.injEq] at hrun
    subst hrun
    simp [kgFirings]
  | cons i is ih =>
    intro s states hrun
    simp only [kgRunStates] at hrun
    cases hstep : kgStep s i with
    | error e => rw [hstep] at hrun; simp at hrun
    | ok s' =>
      rw [hstep] at hrun
      simp only [Option.map_eq_some'] at hrun
      obtain ⟨rest, hrest, rfl⟩ := hrun
      by_cases hfire : s.control = .askPhase1 ∧ s'.control = .generatePhase2
      · have : kgFirings s' rest = 0 := by
          apply kgFirings_zero is s' rest _ hrest
          rw [hfire.2]
          intro hcon
          simp at hcon
        simp [kgFirings, hfire, this]
      · simp only [kgFirings, if_neg hfire, zero_add]
        exact ih s' rest hrest

/-- C1: In every reachable knowledge-gathering state the current index of
each phase is at most that phase's question count; a successful answer
step increments the active phase's index by exactly one; after an answer
step from the phase-1 (resp. phase-2) ask location, the machine moves to
phase-2 generation (resp. knowledge compilation) exactly when the new
index equals the phase's question count; along any successful run the
phase-1-to-phase-2 transition fires at most once, control never moves
backwards, and phase-2 generation is entered only from the phase-1 ask
location; asking a question while the index is at or past the end of the
phase's question list is a fatal error. -/
theorem C1_gathering_invariants :
    (∀ s, KGReachable s →
      s.phase1CurrentIndex ≤ s.phase1QuestionCount ∧
      s.phase2CurrentIndex ≤ s.phase2QuestionCount) ∧
    (∀ s s' a, s.control = KGControl.askPhase1 →
      kgStep s (.answer a) = .ok s' →
      s'.phase1CurrentIndex = s.phase1CurrentIndex + 1) ∧
    (∀ s s' a, s.control = KGControl.askPhase2 →
      kgStep s (.answer a) = .ok s' →
      s'.phase2CurrentIndex = s.phase2CurrentIndex + 1) ∧
    (∀ s s' a, KGReachable s → s.control = KGControl.askPhase1 →
      kgStep s (.answer a) = .ok s' →
      (s'.control = KGControl.generatePhase2 ↔
        s'.phase1CurrentIndex = s.phase1QuestionCount)) ∧
    (∀ s s' a, KGReachable s → s.control = KGControl.askPhase2 →
      kgStep s (.answer a) = .ok s' →
      (s'.control = KGControl.compileKnowledge ↔
        s'.phase2CurrentIndex = s.phase2QuestionCount)) ∧
    (∀ s inputs states, kgRunStates s inputs = some states →
      kgFirings s states ≤ 1) ∧
    (∀ s s' i, kgStep s i = .ok s' → s.control.rank ≤ s'.control.rank) ∧
    (∀ s s' i, kgStep s i = .ok s' →
      s'.control = KGControl.generatePhase2 →
      s.control = KGControl.askPhase1) ∧
    (∀ s a, s.control = KGControl.askPhase1 →
      s.phase1Questions.length ≤ s.phase1CurrentIndex →
      kgStep s (.answer a) = .error "Invalid phase 1 state") ∧
    (∀ s a, s.control = KGControl.askPhase2 →
      s.phase2Questions.length ≤ s.phase2CurrentIndex →
      kgStep s (.answer a) = .error "list index out of range") := by
  refine ⟨?_, ?_, ?_, ?_, ?_, ?_, ?_, ?_, ?_, ?_⟩
  · intro s h
    exact ⟨(kgInv_reachable s h).1, (kgInv_reachable s h).2.1⟩
  · intro s s' a hc h
    obtain ⟨c, p1q, p1c, p1i, p1a, p2q, p2c, p2i, p2a, ph, gk⟩ := s
    simp only at hc
    subst hc
    simp only [kgStep] at h
    split_ifs at h <;> simp only [Except.ok.injEq] at h <;> subst h <;> rfl
  · intro s s' a hc h
    obtain ⟨c, p1q, p1c, p1i, p1a, p2q, p2c, p2i, p2a, ph, gk⟩ := s
    simp only at hc
    subst hc
    simp only [kgStep] at h
    split_ifs at h <;> simp only [Except.ok.injEq] at h <;> subst h <;> rfl
  · intro s s' a hr hc h
    have hinv := (kgInv_reachable s hr).2.2.1 hc
    obtain ⟨c, p1q, p1c, p1i, p1a, p2q, p2c, p2i, p2a, ph, gk⟩ := s
    simp only at hc hinv
    subst hc
    simp only [kgStep] at h
    split_ifs at h with h1 h2 <;> simp only [Except.ok.injEq] at h <;>
      subst h
    · simp only at h2 ⊢
      exact iff_of_false (by simp) (by omega)
    · simp only at h2 ⊢
      exact iff_of_true (by simp) (by omega)
  · intro s s' a hr hc h
    have hinv := (kgInv_reachable s hr).2.2.2 hc
    obtain ⟨c, p1q, p1c, p1i, p1a, p2q, p2c, p2i, p2a, ph, gk⟩ := s
    simp only at hc hinv
    subst hc
    simp only [kgStep] at h
    split_ifs at h with h1 h2 <;> simp only [Except.ok.injEq] at h <;>
      subst h
    · simp only at h2 ⊢
      exact iff_of_false (by simp) (by omega)
    · simp only at h2 ⊢
      exact iff_of_true (by simp) (by omega)
  · intro s inputs states h
    exact kgFirings_le_one inputs s states h
  · intro s s' i h
    exact kgStep_rank_mono s s' i h
  · intro s s' i h h2
    exact kgStep_gen2_from_ask1 s s' i h h2
  · intro s a hc hlen
    obtain ⟨c, p1q, p1c, p1i, p1a, p2q, p2c, p2i, p2a, ph, gk⟩ := s
    simp only at hc hlen
    subst hc
    simp only [kgStep]
    rw [if_pos (Or.inr hlen)]
  · intro s a hc hlen
    obtain ⟨c, p1q, p1c, p1i, p1a, p2q, p2c, p2i, p2a, ph, gk⟩ := s
    simp only at hc hlen
    subst hc
    simp only [kgStep]
    rw [if_pos hlen]

/-- Demo knowledge-gathering states: a 2-question phase 1, followed by a
1-question phase 2. -/
def kgS0 : KGState := kgInitState ["q1", "q2"] 2

/-- After answering phase-1 question 1. -/
def kgS1 : KGState :=
  { kgS0 with phase1Answers := [("q1", "a1")], phase1CurrentIndex := 1 }

/-- After answering phase-1 question 2 (transition fires). -/
def kgS2 : KGState :=
  { kgS1 with
      phase1Answers := [("q1", "a1"), ("q2", "a2")]
      phase1CurrentIndex := 2
      control := .generatePhase2 }

/-- After phase-2 generation with one follow-up. -/
def kgS3 : KGState :=
  { kgS2 with
      phase2Questions := ["f1"]
      phase2QuestionCount := 1
      phase2CurrentIndex := 0
      phase2Answers := []
      knowledgeGatheringPhase := "phase_2"
      control := .askPhase2 }

/-- After answering the follow-up (transition to compilation). -/
def kgS4 : KGState :=
  { kgS3 with
      phase2Answers := [("f1", "b1")]
      phase2CurrentIndex := 1
      control := .compileKnowledge }

/-- A phase-1 ask state whose question list is exhausted. -/
def kgBad1 : KGState := { kgS0 with phase1Questions := [] }

/-- A phase-2 ask state whose question list is exhausted. -/
def kgBad2 : KGState := { kgS3 with phase2Questions := [] }

/-- Witness for `C1_gathering_invariants` on a concrete 2-question run. -/
theorem C1_gathering_invariants_witness :
    (kgS0.phase1CurrentIndex ≤ kgS0.phase1QuestionCount ∧
      kgS0.phase2CurrentIndex ≤ kgS0.phase2QuestionCount) ∧
    kgS1.phase1CurrentIndex = kgS0.phase1CurrentIndex + 1 ∧
    kgS4.phase2CurrentIndex = kgS3.phase2CurrentIndex + 1 ∧
    (kgS2.control = KGControl.generatePhase2 ↔
      kgS2.phase1CurrentIndex = kgS1.phase1QuestionCount) ∧
    (kgS4.control = KGControl.compileKnowledge ↔
      kgS4.phase2CurrentIndex = kgS3.phase2QuestionCount) ∧
    kgFirings kgS0 [kgS1, kgS2] ≤ 1 ∧
    kgS1.control.rank ≤ kgS2.control.rank ∧
    kgS1.control = KGControl.askPhase1 ∧
    kgStep kgBad1 (.answer "x") = .error "Invalid phase 1 state" ∧
    kgStep kgBad2 (.answer "x") = .error "list index out of range" := by
  have hreach0 : KGReachable kgS0 :=
    KGReachable.init ["q1", "q2"] 2 (by norm_num) (by norm_num)
  have hstep01 : kgStep kgS0 (KGInput.answer "a1") = .ok kgS1 := rfl
  have hstep12 : kgStep kgS1 (KGInput.answer "a2") = .ok kgS2 := rfl
  have hstep34 : kgStep kgS3 (KGInput.answer "b1") = .ok kgS4 := rfl
  have hreach1 : KGReachable kgS1 :=
    KGReachable.stepAnswer kgS0 kgS1 "a1" hreach0 hstep01
  have hreach2 : KGReachable kgS2 :=
    KGReachable.stepAnswer kgS1 kgS2 "a2" hreach1 hstep12
  have hreach3 : KGReachable kgS3 :=
    KGReachable.stepGen kgS2 kgS3 ["f1"] 1 hreach2 (by norm_num)
      (by norm_num) rfl
  refine ⟨C1_gathering_invariants.1 kgS0 hreach0,
    C1_gathering_invariants.2.1 kgS0 kgS1 "a1" (by decide) hstep01,
    C1_gathering_invariants.2.2.1 kgS3 kgS4 "b1" (by decide) hstep34,
    C1_gathering_invariants.2.2.2.1 kgS1 kgS2 "a2" hreach1 (by decide)
      hstep12,
    C1_gathering_invariants.2.2.2.2.1 kgS3 kgS4 "b1" hreach3 (by decide)
      hstep34,
    C1_gathering_invariants.2.2.2.2.2.1 kgS0 [KGInput.answer "a1",
      KGInput.answer "a2"] [kgS1, kgS2] (by decide),
    C1_gathering_invariants.2.2.2.2.2.2.1 kgS1 kgS2 (KGInput.answer "a2")
      hstep12,
    C1_gathering_invariants.2.2.2.2.2.2.2.1 kgS1 kgS2 (KGInput.answer "a2")
      hstep12 (by decide),
    C1_gathering_invariants.2.2.2.2.2.2.2.2.1 kgBad1 "x" (by decide)
      (by decide),
    C1_gathering_invariants.2.2.2.2.2.2.2.2.2 kgBad2 "x" (by decide)
      (by decide)⟩

/-! ## Exploration service (`app/services/exploration_service.py`, row
types from `app/models/exploration_qa.py` and
`app/models/conversation.py`) -/

/-- One `exploration_qa` row (`rid` is the primary key; timestamps are
`Int`). -/
structure QARow where
  rid : Nat
  conversationId : Nat
  topicId : String
  questionType : String
  questionNumber : Nat
  question : String
  answer : Option String
  askedAt : Int
  answeredAt : Option Int
deriving DecidableEq, Repr

/-- The columns of `conversations` the service reads and writes. -/
structure ConversationRow where
  convId : Nat
  childId : Nat
  explorationPhase : String
  currentExplorationTopicId : Option String
  summary : Option String
deriving DecidableEq, Repr

/-- The database slice for one conversation. -/
structure ExplorationDB where
  conversation : ConversationRow
  qas : List QARow
deriving DecidableEq, Repr

/-- Embeds `QuestionResponse` / `ExplorationCompleteResponse`. -/
inductive ExplorationResponse where
  | question (question : String) (questionNumber : Nat)
      (questionType : String) (phase : String) (isLastQuestion : Bool)
      (topicId : String)
  | complete (explorationQA deepQA : List QARow)
      (initialConcern : Option String) (topicId : String)
deriving DecidableEq, Repr

/-- Stable ascending insertion by question number (`ORDER BY
question_number`). -/
def insertByNumber (x : QARow) : List QARow → List QARow
  | [] => [x]
  | y :: ys =>
    if y.questionNumber < x.questionNumber then y :: insertByNumber x ys
    else x :: y :: ys

/-- Stable ascending sort by question number. -/
def sortByNumber : List QARow → List QARow
  | [] => []
  | x :: xs => insertByNumber x (sortByNumber xs)

/-- Embeds `ExplorationService._get_qa_list`: the answered rows of one topic and
question type, ordered by question number. -/
def getQAList (db : ExplorationDB) (topicId : String)
    (questionType : String) : List QARow :=
  sortByNumber (db.qas.filter (fun q =>
    q.conversationId == db.conversation.convId && q.topicId == topicId &&
      q.questionType == questionType && !q.answer.isNone))

/-- The current unanswered question of a topic: `answer IS NULL`, ordered
by question number, limit 1 — the minimum-numbered unanswered row. -/
def pendingQuestion (db : ExplorationDB) (topicId : String) : Option QARow :=
  (db.qas.filter (fun q =>
    q.conversationId == db.conversation.convId && q.topicId == topicId &&
      q.answer.isNone)).argmin QARow.questionNumber

/-- Embeds `ExplorationService.start_exploration`.  The generated topic id, the
generated first question, the clock and the fresh row id are external
inputs (the child lookup touches the excluded relational storage and is
not modelled). -/
def startExploration (db : ExplorationDB) (conversationId _childId : Nat)
    (initialConcern : String) (topicId : String) (firstQuestion : String)
    (now : Int) (newId : Nat) :
    Except String (ExplorationDB × ExplorationResponse) :=
  if db.conversation.convId ≠ conversationId then
    .error "Conversation not found"
  else
    let conv := { db.conversation with
      explorationPhase := "exploration_questions"
      currentExplorationTopicId := some topicId
      summary := some initialConcern }
    let qaRecord : QARow := ⟨newId, conversationId, topicId, "exploration",
      1, firstQuestion, none, now, none⟩
    .ok ({ conversation := conv, qas := db.qas ++ [qaRecord] },
      .question firstQuestion 1 "exploration" "exploration_questions"
        false topicId)

/-- Embeds `ExplorationService.submit_answer`.  The generated next question, the
clock and the fresh row id are external inputs.  `if not topic_id` is
Python truthiness, so an empty-string topic id is also rejected. -/
def submitAnswer (db : ExplorationDB) (conversationId : Nat)
    (answer : String) (now : Int) (generatedQuestion : String)
    (newId : Nat) : Except String (ExplorationDB × ExplorationResponse) :=
  if db.conversation.convId ≠ conversationId then
    .error "Conversation not found"
  else
    match db.conversation.currentExplorationTopicId with
    | none => .error "No active exploration topic"
    | some topicId =>
      if topicId = "" then .error "No active exploration topic"
      else
        match pendingQuestion db topicId with
        | none => .error "No pending question to answer"
        | some currentQA =>
          let answered := { currentQA with
            answer := some answer, answeredAt := some now }
          let qas1 := db.qas.map (fun q =>
            if q.rid = currentQA.rid then answered else q)
          let n := currentQA.questionNumber
          if n < 5 then
            let newQA : QARow := ⟨newId, conversationId, topicId,
              "exploration", n + 1, generatedQuestion, none, now, none⟩
            .ok ({ db with qas := qas1 ++ [newQA] },
              .question generatedQuestion (n + 1) "exploration"
                "exploration_questions" false topicId)
          else if n = 5 then
            let newQA : QARow := ⟨newId, conversationId, topicId, "deep",
              6, generatedQuestion, none, now, none⟩
            let conv1 := { db.conversation with
              explorationPhase := "deep_questions" }
            .ok ({ conversation := conv1, qas := qas1 ++ [newQA] },
              .question generatedQuestion 6 "deep" "deep_questions" false
                topicId)
          else if n < 10 then
            let newQA : QARow := ⟨newId, conversationId, topicId, "deep",
              n + 1, generatedQuestion, none, now, none⟩
            .ok ({ conversation := db.conversation, qas := qas1 ++ [newQA] },
              .question generatedQuestion (n + 1) "deep" "deep_questions"
                (decide (n + 1 = 10)) topicId)
          else
            let conv1 := { db.conversation with
              explorationPhase := "completed" }
            let db1 : ExplorationDB := { conversation := conv1, qas := qas1 }
            .ok (db1,
              .complete (getQAList db1 topicId "exploration")
                (getQAList db1 topicId "deep") db.conversation.summary
                topicId)

/-- Test harness: drive `submitAnswer` repeatedly; step `k` uses answer
"ans", clock 0, generated question "q" and fresh row id `200 + k`. -/
def runSubmits (db : ExplorationDB) : Nat → Except String ExplorationDB
  | 0 => .ok db
  | k + 1 =>
    match submitAnswer db db.conversation.convId "ans" 0 "q" (200 + k) with
    | .ok (db1, _) => runSubmits db1 k
    | .error e => .error e

deriving instance DecidableEq for Except

/-- The database state produced by the completion branch of
`submitAnswer` (question 10 answered): the pending row is answered and
the conversation is marked completed. -/
def submitCompleteDB (db : ExplorationDB) (p : QARow) (ans : String)
    (now : Int) : ExplorationDB :=
  { conversation := { db.conversation with
      explorationPhase := "completed" }
    qas := db.qas.map (fun q => if q.rid = p.rid then
      { p with answer := some ans, answeredAt := some now } else q) }

/-- The database state after the phase-transition branch of
`submitAnswer` (question 5 answered): conversation moved to
deep_questions with the given row list. -/
def submitDeepPhaseDB (db : ExplorationDB) (qas : List QARow) :
    ExplorationDB :=
  { conversation := { db.conversation with
      explorationPhase := "deep_questions" }
    qas := qas }

/-- C2: Submitting an answer for a conversation with no active topic, or
with no pending unanswered question, is rejected with an error — not a
no-op; when a pending question exists it is the lowest-numbered unanswered
one of the active topic, exactly that row gets its answer and answered-at
timestamp set, every other pre-existing row is unchanged, and at most one
new (unanswered) question row is added. -/
theorem C2_submit_answer_resume (db : ExplorationDB) (cid : Nat)
    (ans : String) (now : Int) (genQ : String) (newId : Nat) :
    (db.conversation.convId = cid →
      db.conversation.currentExplorationTopicId = none →
      submitAnswer db cid ans now genQ newId =
        .error "No active exploration topic") ∧
    (∀ t, db.conversation.convId = cid →
      db.conversation.currentExplorationTopicId = some t → t ≠ "" →
      pendingQuestion db t = none →
      submitAnswer db cid ans now genQ newId =
        .error "No pending question to answer") ∧
    (∀ t p, db.conversation.convId = cid →
      db.conversation.currentExplorationTopicId = some t → t ≠ "" →
      pendingQuestion db t = some p →
      ((p ∈ db.qas ∧ p.answer = none ∧ p.topicId = t ∧
        p.conversationId = cid) ∧
      (∀ q ∈ db.qas, q.conversationId = cid → q.topicId = t →
        q.answer = none → p.questionNumber ≤ q.questionNumber) ∧
      ∃ db2 resp, submitAnswer db cid ans now genQ newId =
          .ok (db2, resp) ∧
        ∃ newRows, db2.qas =
          db.qas.map (fun q => if q.rid = p.rid then
            { p with answer := some ans, answeredAt := some now } else q)
            ++ newRows ∧
          newRows.length ≤ 1 ∧
          (∀ nq ∈ newRows, nq.answer = none ∧ nq.answeredAt = none))) := by
  refine ⟨?_, ?_, ?_⟩
  · intro h1 h2
    simp only [submitAnswer, if_neg (not_not_intro h1), h2]
  · intro t h1 h2 ht hp
    simp only [submitAnswer, if_neg (not_not_intro h1), h2, if_neg ht, hp]
  · intro t p h1 h2 ht hp
    have hmem : p ∈ db.qas.filter (fun q =>
        q.conversationId == db.conversation.convId && q.topicId == t &&
          q.answer.isNone) :=
      List.argmin_mem (Option.mem_def.mpr hp)
    obtain ⟨hpin, hpred⟩ := List.mem_filter.mp hmem
    simp only [Bool.and_eq_true, beq_iff_eq,
      Option.isNone_iff_eq_none] at hpred
    obtain ⟨⟨hpc, hpt⟩, hpa⟩ := hpred
    refine ⟨⟨hpin, hpa, hpt, by rw [hpc, h1]⟩, ?_, ?_⟩
    · intro q hq hqc hqt hqa
      have hqmem : q ∈ db.qas.filter (fun q =>
          q.conversationId == db.conversation.convId && q.topicId == t &&
            q.answer.isNone) :=
        List.mem_filter.mpr ⟨hq, by simp [hqc, h1, hqt, hqa]⟩
      exact List.le_of_mem_argmin hqmem (Option.mem_def.mpr hp)
    · by_cases h5 : p.questionNumber < 5
      · exact ⟨{ db with qas := db.qas.map (fun q => if q.rid = p.rid then
            { p with answer := some ans, answeredAt := some now } else q) ++
            [⟨newId, cid, t, "exploration", p.questionNumber + 1, genQ,
              none, now, none⟩] },
          .question genQ (p.questionNumber + 1) "exploration"
            "exploration_questions" false t,
          by simp only [submitAnswer, if_neg (not_not_intro h1), h2,
            if_neg ht, hp, if_pos h5],
          [⟨newId, cid, t, "exploration", p.questionNumber + 1, genQ,
            none, now, none⟩], rfl, by norm_num, by simp⟩
      · by_cases h5e : p.questionNumber = 5
        · exact ⟨submitDeepPhaseDB db
            (db.qas.map (fun q => if q.rid = p.rid then
              { p with answer := some ans, answeredAt := some now }
              else q) ++ [⟨newId, cid, t, "deep", 6, genQ, none, now,
                none⟩]),
          .question genQ 6 "deep" "deep_questions" false t,
          by simp only [submitAnswer, if_neg (not_not_intro h1), h2,
            if_neg ht, hp, if_neg h5, if_pos h5e, submitDeepPhaseDB],
          [⟨newId, cid, t, "deep", 6, genQ, none, now, none⟩], by rfl,
          by norm_num, by simp⟩
        · by_cases h10 : p.questionNumber < 10
          · exact ⟨{ db with
              qas := db.qas.map (fun q => if q.rid = p.rid then
                { p with answer := some ans, answeredAt := some now }
                else q) ++ [⟨newId, cid, t, "deep", p.questionNumber + 1,
                  genQ, none, now, none⟩] },
            .question genQ (p.questionNumber + 1) "deep" "deep_questions"
              (decide (p.questionNumber + 1 = 10)) t,
            by simp only [submitAnswer, if_neg (not_not_intro h1), h2,
              if_neg ht, hp, if_neg h5, if_neg h5e, if_pos h10],
            [⟨newId, cid, t, "deep", p.questionNumber + 1, genQ, none,
              now, none⟩], rfl, by norm_num, by simp⟩
          · exact ⟨submitCompleteDB db p ans now,
              .complete (getQAList (submitCompleteDB db p ans now) t
                  "exploration")
                (getQAList (submitCompleteDB db p ans now) t "deep")
                db.conversation.summary t,
              by simp only [submitAnswer, if_neg (not_not_intro h1), h2,
                if_neg ht, hp, if_neg h5, if_neg h5e, if_neg h10,
                submitCompleteDB],
              [], by simp [submitCompleteDB], by norm_num, by simp⟩

/-- A conversation with no active topic. -/
def expDbNoTopic : ExplorationDB := ⟨⟨1, 3, "not_started", none, none⟩, []⟩

/-- A conversation whose only question is already answered (no pending
suspension). -/
def expDbAnswered : ExplorationDB :=
  ⟨⟨1, 3, "exploration_questions", some "t1", some "c"⟩,
    [⟨100, 1, "t1", "exploration", 1, "q", some "a", 0, some 0⟩]⟩

/-- The pending row of `expDbPending`. -/
def expPendingRow : QARow := ⟨100, 1, "t1", "exploration", 1, "q", none, 0,
  none⟩

/-- A conversation with one pending question. -/
def expDbPending : ExplorationDB :=
  ⟨⟨1, 3, "exploration_questions", some "t1", some "c"⟩, [expPendingRow]⟩

/-- Witness for `C2_submit_answer_resume` on concrete conversations. -/
theorem C2_submit_answer_resume_witness :
    submitAnswer expDbNoTopic 1 "a" 0 "q2" 101 =
      .error "No active exploration topic" ∧
    submitAnswer expDbAnswered 1 "a" 0 "q2" 101 =
      .error "No pending question to answer" ∧
    ((expPendingRow ∈ expDbPending.qas ∧ expPendingRow.answer = none ∧
      expPendingRow.topicId = "t1" ∧ expPendingRow.conversationId = 1) ∧
    (∀ q ∈ expDbPending.qas, q.conversationId = 1 → q.topicId = "t1" →
      q.answer = none →
      expPendingRow.questionNumber ≤ q.questionNumber) ∧
    ∃ db2 resp, submitAnswer expDbPending 1 "a" 0 "q2" 101 =
        .ok (db2, resp) ∧
      ∃ newRows, db2.qas =
        expDbPending.qas.map (fun q => if q.rid = expPendingRow.rid then
          { expPendingRow with answer := some "a", answeredAt := some 0 }
          else q) ++ newRows ∧
        newRows.length ≤ 1 ∧
        (∀ nq ∈ newRows, nq.answer = none ∧ nq.answeredAt = none)) :=
  ⟨(C2_submit_answer_resume expDbNoTopic 1 "a" 0 "q2" 101).1 rfl rfl,
   (C2_submit_answer_resume expDbAnswered 1 "a" 0 "q2" 101).2.1 "t1" rfl
     rfl (by decide) (by decide),
   (C2_submit_answer_resume expDbPending 1 "a" 0 "q2" 101).2.2 "t1"
     expPendingRow rfl rfl (by decide) (by decide)⟩

/-- The database state produced by `startExploration`. -/
def startedDB (db0 : ExplorationDB) (conversationId : Nat)
    (concern topicId q : String) (now : Int) (nid : Nat) : ExplorationDB :=
  { conversation := { db0.conversation with
      explorationPhase := "exploration_questions"
      currentExplorationTopicId := some topicId
      summary := some concern }
    qas := db0.qas ++ [⟨nid, conversationId, topicId, "exploration", 1, q,
      none, now, none⟩] }

/-- Demo conversation before exploration starts. -/
def expDemoDB0 : ExplorationDB := ⟨⟨1, 3, "not_started", none, none⟩, []⟩

/-- The demo conversation right after `start_exploration` (question 1
asked). -/
def expDemoDB1 : ExplorationDB :=
  ⟨⟨1, 3, "exploration_questions", some "t1", some "concern"⟩,
    [⟨100, 1, "t1", "exploration", 1, "q", none, 0, none⟩]⟩

/-- The demo conversation after answering questions 1..5. -/
def expDemoMid : Except String ExplorationDB := runSubmits expDemoDB1 5

/-- The demo conversation after answering all 10 questions. -/
def expDemoFinal : Except String ExplorationDB := runSubmits expDemoDB1 10

/-- Extract the exploration phase from a run result. -/
def exceptPhase : Except String ExplorationDB → Option String
  | .ok d => some d.conversation.explorationPhase
  | .error _ => none

/-- Count the rows of one question type in a run result. -/
def exceptQACount (questionType : String) :
    Except String ExplorationDB → Option Nat
  | .ok d => some ((d.qas.filter
      (fun q => q.questionType == questionType)).length)
  | .error _ => none

/-- Are all rows answered in a run result? -/
def exceptAllAnswered : Except String ExplorationDB → Option Bool
  | .ok d => some (d.qas.all (fun q => !q.answer.isNone))
  | .error _ => none

/-- C10: The interview follows the fixed 10-question schedule:
submit_answer issues the next exploration question while the answered
question's number is below 5, switches to the deep-questions phase
exactly when question 5 is answered (issuing question 6), issues deep
questions through number 10 (marking question 10 as last), and completes
the exploration exactly when question 10 is answered; start_exploration
always issues exploration question 1; so the concrete demo run asks
exactly 5 exploration questions followed by exactly 5 deep questions and
ends completed with every question answered. -/
theorem C10_ten_question_schedule (db : ExplorationDB) (cid : Nat)
    (ans : String) (now : Int) (genQ : String) (newId : Nat) (t : String)
    (p : QARow) :
    (db.conversation.convId = cid →
      db.conversation.currentExplorationTopicId = some t → t ≠ "" →
      pendingQuestion db t = some p →
      ((p.questionNumber < 5 →
        ∃ db2, submitAnswer db cid ans now genQ newId = .ok (db2,
            .question genQ (p.questionNumber + 1) "exploration"
              "exploration_questions" false t) ∧
          db2.conversation = db.conversation) ∧
      (p.questionNumber = 5 →
        ∃ db2, submitAnswer db cid ans now genQ newId = .ok (db2,
            .question genQ 6 "deep" "deep_questions" false t) ∧
          db2.conversation.explorationPhase = "deep_questions") ∧
      (5 < p.questionNumber → p.questionNumber < 10 →
        ∃ db2, submitAnswer db cid ans now genQ newId = .ok (db2,
            .question genQ (p.questionNumber + 1) "deep" "deep_questions"
              (decide (p.questionNumber + 1 = 10)) t) ∧
          db2.conversation = db.conversation) ∧
      (10 ≤ p.questionNumber →
        ∃ db2 e d, submitAnswer db cid ans now genQ newId = .ok (db2,
            .complete e d db.conversation.summary t) ∧
          db2.conversation.explorationPhase = "completed"))) ∧
    (∀ db0 concern topicId q nid, db0.conversation.convId = cid →
      startExploration db0 cid 3 concern topicId q now nid =
        .ok (startedDB db0 cid concern topicId q now nid,
          .question q 1 "exploration" "exploration_questions" false
            topicId) ∧
      (startedDB db0 cid concern topicId q now
        nid).conversation.explorationPhase = "exploration_questions" ∧
      (startedDB db0 cid concern topicId q now
          nid).conversation.currentExplorationTopicId = some topicId) ∧
    (startExploration expDemoDB0 1 3 "concern" "t1" "q" 0 100 =
      .ok (expDemoDB1,
        .question "q" 1 "exploration" "exploration_questions" false
          "t1") ∧
    exceptPhase expDemoMid = some "deep_questions" ∧
    exceptPhase expDemoFinal = some "completed" ∧
    exceptQACount "exploration" expDemoFinal = some 5 ∧
    exceptQACount "deep" expDemoFinal = some 5 ∧
    exceptAllAnswered expDemoFinal = some true) := by
  refine ⟨?_, ?_, ?_⟩
  · intro h1 h2 ht hp
    refine ⟨?_, ?_, ?_, ?_⟩
    · intro h5
      exact ⟨{ db with qas := db.qas.map (fun q => if q.rid = p.rid then
          { p with answer := some ans, answeredAt := some now } else q) ++
          [⟨newId, cid, t, "exploration", p.questionNumber + 1, genQ,
            none, now, none⟩] },
        by simp only [submitAnswer, if_neg (not_not_intro h1), h2,
          if_neg ht, hp, if_pos h5], rfl⟩
    · intro h5e
      have h5 : ¬ p.questionNumber < 5 := by omega
      exact ⟨submitDeepPhaseDB db
          (db.qas.map (fun q => if q.rid = p.rid then
            { p with answer := some ans, answeredAt := some now }
            else q) ++ [⟨newId, cid, t, "deep", 6, genQ, none, now,
              none⟩]),
        by simp only [submitAnswer, if_neg (not_not_intro h1), h2,
          if_neg ht, hp, if_neg h5, if_pos h5e, submitDeepPhaseDB], rfl⟩
    · intro h5lt h10
      have h5 : ¬ p.questionNumber < 5 := by omega
      have h5e : ¬ p.questionNumber = 5 := by omega
      exact ⟨{ db with qas := db.qas.map (fun q => if q.rid = p.rid then
          { p with answer := some ans, answeredAt := some now } else q) ++
          [⟨newId, cid, t, "deep", p.questionNumber + 1, genQ, none, now,
            none⟩] },
        by simp only [submitAnswer, if_neg (not_not_intro h1), h2,
          if_neg ht, hp, if_neg h5, if_neg h5e, if_pos h10], rfl⟩
    · intro h10le
      have h5 : ¬ p.questionNumber < 5 := by omega
      have h5e : ¬ p.questionNumber = 5 := by omega
      have h10 : ¬ p.questionNumber < 10 := by omega
      exact ⟨submitCompleteDB db p ans now,
        getQAList (submitCompleteDB db p ans now) t "exploration",
        getQAList (submitCompleteDB db p ans now) t "deep",
        by simp only [submitAnswer, if_neg (not_not_intro h1), h2,
          if_neg ht, hp, if_neg h5, if_neg h5e, if_neg h10,
          submitCompleteDB], rfl⟩
  · intro db0 concern topicId q nid h1
    refine ⟨?_, rfl, rfl⟩
    simp only [startExploration, if_neg (not_not_intro h1), startedDB]
  · refine ⟨by decide, by decide, by decide, by decide, by decide,
      by decide⟩

/-- A conversation whose pending question is exploration question 5. -/
def expDbPending5 : ExplorationDB :=
  ⟨⟨1, 3, "exploration_questions", some "t1", some "c"⟩,
    [⟨104, 1, "t1", "exploration", 5, "q5", none, 0, none⟩]⟩

/-- A conversation whose pending question is deep question 7. -/
def expDbPending7 : ExplorationDB :=
  ⟨⟨1, 3, "deep_questions", some "t1", some "c"⟩,
    [⟨106, 1, "t1", "deep", 7, "q7", none, 0, none⟩]⟩

/-- A conversation whose pending question is deep question 10. -/
def expDbPending10 : ExplorationDB :=
  ⟨⟨1, 3, "deep_questions", some "t1", some "c"⟩,
    [⟨109, 1, "t1", "deep", 10, "q10", none, 0, none⟩]⟩

/-- Witness for `C10_ten_question_schedule` at pending questions 1, 5, 7
and 10 and a fresh start. -/
theorem C10_ten_question_schedule_witness :
    (∃ db2, submitAnswer expDbPending 1 "a" 0 "q2" 101 = .ok (db2,
        .question "q2" 2 "exploration" "exploration_questions" false
          "t1") ∧
      db2.conversation = expDbPending.conversation) ∧
    (∃ db2, submitAnswer expDbPending5 1 "a" 0 "q6" 105 = .ok (db2,
        .question "q6" 6 "deep" "deep_questions" false "t1") ∧
      db2.conversation.explorationPhase = "deep_questions") ∧
    (∃ db2, submitAnswer expDbPending7 1 "a" 0 "q8" 107 = .ok (db2,
        .question "q8" 8 "deep" "deep_questions" false "t1") ∧
      db2.conversation = expDbPending7.conversation) ∧
    (∃ db2 e d, submitAnswer expDbPending10 1 "a" 0 "qx" 110 = .ok (db2,
        .complete e d expDbPending10.conversation.summary "t1") ∧
      db2.conversation.explorationPhase = "completed") ∧
    (startExploration expDemoDB0 1 3 "c2" "t2" "qq" 0 150 =
      .ok (startedDB expDemoDB0 1 "c2" "t2" "qq" 0 150,
        .question "qq" 1 "exploration" "exploration_questions" false
          "t2") ∧
      (startedDB expDemoDB0 1 "c2" "t2" "qq" 0
        150).conversation.explorationPhase = "exploration_questions" ∧
      (startedDB expDemoDB0 1 "c2" "t2" "qq" 0
        150).conversation.currentExplorationTopicId = some "t2") :=
  ⟨((C10_ten_question_schedule expDbPending 1 "a" 0 "q2" 101 "t1"
      expPendingRow).1 rfl rfl (by decide) (by decide)).1 (by decide),
   ((C10_ten_question_schedule expDbPending5 1 "a" 0 "q6" 105 "t1"
      ⟨104, 1, "t1", "exploration", 5, "q5", none, 0, none⟩).1 rfl rfl
      (by decide) (by decide)).2.1 rfl,
   ((C10_ten_question_schedule expDbPending7 1 "a" 0 "q8" 107 "t1"
      ⟨106, 1, "t1", "deep", 7, "q7", none, 0, none⟩).1 rfl rfl
      (by decide) (by decide)).2.2.1 (by decide) (by decide),
   ((C10_ten_question_schedule expDbPending10 1 "a" 0 "qx" 110 "t1"
      ⟨109, 1, "t1", "deep", 10, "q10", none, 0, none⟩).1 rfl rfl
      (by decide) (by decide)).2.2.2 (by decide),
   (C10_ten_question_schedule expDemoDB0 1 "x" 0 "x" 0 "t0"
      ⟨0, 0, "", "", 0, "", none, 0, none⟩).2.1 expDemoDB0 "c2" "t2" "qq"
      150 rfl⟩

end Lundo
